import Mathlib

/-!
# War estruturado: initialization, combat, attack phase, mission check, game loop

A shallow embedding of `war.c`.

* `Territorio` is the C record `{ char nome[40]; char cor[20]; int tropas; }`.
  The two character buffers hold NUL-terminated text and are compared with
  `strcmp(..) == 0` and copied with `strcpy`, so they are strings with
  equality and assignment.  `tropas` is a C `int`; the only arithmetic the
  program does on it is `--`, which agrees with subtraction on the integers
  for every value above `INT_MIN`, so `tropas : Int`.
* The pair `Territorio *mapa, int n` (a pointer to `n` records) is a list; `n`
  is its length.
* `rand()` and `printf` act on an explicit `Ambiente`: the sequence of values
  `rand()` is going to return with the number of calls made so far, and the
  log of what was printed, one `Mensagem` per `printf` call carrying the
  arguments of its format string.
* The two integers `faseDeAtaque` reads with `scanf` are its arguments `a`, `d`.
* The loop of `main` is `iteracao` (its body up to the end of the `switch`),
  `controle` (the `break` and the loop test) and `laco` (the loop on a list of
  entries); the variables that live across iterations are a `Jogo`.
* `simularAtaque` receives two pointers; in the program they always point to
  two different records (`a == d` is rejected before the call), so it is a
  function of two records returning the two records after the call.
-/

namespace War

/-- The record `Territorio` of the program. -/
structure Territorio where
  nome : String
  cor : String
  tropas : Int
deriving DecidableEq, Repr

/-- One value per `printf` call of the embedded functions, with the values
substituted in its format string. -/
inductive Mensagem where
  /-- Line `"\nMAPA ATUAL\n"`. -/
  | mapaAtual
  /-- Line `"%d - %-12s | Cor: %-10s | Tropas: %d\n"`. -/
  | linhaMapa (indice : Nat) (nome cor : String) (tropas : Int)
  /-- Text `"\nEscolha o território atacante (1-%d): "`. -/
  | escolhaAtacante (n : Int)
  /-- Text `"Escolha o território defensor (1-%d): "`. -/
  | escolhaDefensor (n : Int)
  /-- Line `"Escolha inválida.\n"`. -/
  | escolhaInvalida
  /-- Line `"%s não tem tropas suficientes para atacar!\n"`. -/
  | semTropas (nome : String)
  /-- Line `"\n %s (%s) ataca %s (%s)!\n"`. -/
  | ataca (nomeA corA nomeD corD : String)
  /-- Line `"Dado atacante: %d | Dado defensor: %d\n"`. -/
  | dados (dadoA dadoD : Nat)
  /-- Line `"Atacante venceu! %s perdeu 1 tropa.\n"`. -/
  | atacanteVenceu (nome : String)
  /-- Line `"%s conquistou o território %s!\n"`. -/
  | conquistou (nomeA nomeD : String)
  /-- Line `"Defensor venceu! %s perdeu 1 tropa.\n"`. -/
  | defensorVenceu (nome : String)
  /-- Line `"\nSUA MISSÃO\n"`. -/
  | suaMissao
  /-- Line `"Destruir o exército Verde.\n"`. -/
  | missaoDestruirVerde
  /-- Line `"Conquistar 3 territórios.\n"`. -/
  | missaoConquistarTres
  /-- Line `"\nMENU PRINCIPAL\n"`. -/
  | menuPrincipal
  /-- Line `"1 - Atacar\n"`. -/
  | menuAtacar
  /-- Line `"2 - Verificar Missão\n"`. -/
  | menuVerificarMissao
  /-- Line `"0 - Sair\n"`. -/
  | menuSair
  /-- Text `"Escolha uma opção: "`. -/
  | escolhaOpcao
  /-- Line `"\nConcluiu a missão\n"`. -/
  | concluiuMissao
  /-- Line `"\nMissão ainda não concluída\n"`. -/
  | missaoNaoConcluida
  /-- Line `"\nSaindo do jogo...\n"`. -/
  | saindoDoJogo
  /-- Line `"\nOpção inválida.\n"`. -/
  | opcaoInvalida
deriving DecidableEq, Repr

/-- What the functions reach outside their arguments: the random source and
the standard output. -/
structure Ambiente where
  /-- The values the successive calls of `rand()` return. -/
  aleatorios : Nat → Nat
  /-- How many calls of `rand()` have been made. -/
  sorteados : Nat
  /-- What has been printed, oldest first. -/
  saida : List Mensagem

/-- Call `rand()`: the next value of the sequence, and the source advanced. -/
def Ambiente.rand (e : Ambiente) : Nat × Ambiente :=
  (e.aleatorios e.sorteados, { e with sorteados := e.sorteados + 1 })

/-- Call `printf`: one more message at the end of the output. -/
def Ambiente.printf (e : Ambiente) (m : Mensagem) : Ambiente :=
  { e with saida := e.saida ++ [m] }

/-- The body of the loop of `exibirMapa`, from index `i` on. -/
def exibirLinhas : List Territorio → Nat → Ambiente → Ambiente
  | [], _, e => e
  | t :: resto, i, e =>
    exibirLinhas resto (i + 1) (e.printf (.linhaMapa (i + 1) t.nome t.cor t.tropas))

/-- `exibirMapa(mapa, n)`: prints the header and one line per territory. -/
def exibirMapa (mapa : List Territorio) (e : Ambiente) : Ambiente :=
  exibirLinhas mapa 0 (e.printf .mapaAtual)

/-- `simularAtaque(atacante, defensor)`: the two records after the call and
the environment after it. -/
def simularAtaque (atacante defensor : Territorio) (e : Ambiente) :
    Territorio × Territorio × Ambiente :=
  if atacante.tropas ≤ 1 then
    (atacante, defensor, e.printf (.semTropas atacante.nome))
  else
    let (r1, e) := e.rand
    let dadoA := r1 % 6 + 1
    let (r2, e) := e.rand
    let dadoD := r2 % 6 + 1
    let e := e.printf (.ataca atacante.nome atacante.cor defensor.nome defensor.cor)
    let e := e.printf (.dados dadoA dadoD)
    if dadoA ≥ dadoD then
      let defensor := { defensor with tropas := defensor.tropas - 1 }
      let e := e.printf (.atacanteVenceu defensor.nome)
      if defensor.tropas ≤ 0 then
        let e := e.printf (.conquistou atacante.nome defensor.nome)
        let defensor := { defensor with tropas := 1 }
        let defensor := { defensor with cor := atacante.cor }
        (atacante, defensor, e)
      else
        (atacante, defensor, e)
    else
      let atacante := { atacante with tropas := atacante.tropas - 1 }
      let e := e.printf (.defensorVenceu atacante.nome)
      (atacante, defensor, e)

/-- `faseDeAtaque(mapa, n)` with `a` and `d` the two integers read from the
player: the board and the environment after the call. -/
def faseDeAtaque (mapa : List Territorio) (a d : Int) (e : Ambiente) :
    List Territorio × Ambiente :=
  let n : Int := mapa.length
  let e := exibirMapa mapa e
  let e := e.printf (.escolhaAtacante n)
  let e := e.printf (.escolhaDefensor n)
  if h : a < 1 ∨ a > n ∨ d < 1 ∨ d > n ∨ a = d then
    (mapa, e.printf .escolhaInvalida)
  else
    have ha : (a - 1).toNat < mapa.length := by omega
    have hd : (d - 1).toNat < mapa.length := by omega
    let r := simularAtaque mapa[(a - 1).toNat] mapa[(d - 1).toNat] e
    ((mapa.set (a - 1).toNat r.1).set (d - 1).toNat r.2.1, r.2.2)

/-- The body of the loop of `verificarVitoria`: the counters `conquistas`
and `verdes` after looking at one territory. -/
def contarTerritorio (corJogador : String) (c : Nat × Nat) (t : Territorio) : Nat × Nat :=
  let conquistas := if t.cor = corJogador then c.1 + 1 else c.1
  let verdes := if t.cor = "Verde" then c.2 + 1 else c.2
  (conquistas, verdes)

/-- `verificarVitoria(mapa, n, idMissao, corJogador)`. -/
def verificarVitoria (mapa : List Territorio) (idMissao : Int) (corJogador : String) : Bool :=
  let c := mapa.foldl (contarTerritorio corJogador) (0, 0)
  if idMissao = 0 then
    c.2 == 0
  else
    decide (c.1 ≥ 3)

/-- The attacker's die of a resolved attack started in environment `e`: the
first `rand() % 6 + 1`. -/
def dadoAtacante (e : Ambiente) : Nat :=
  e.rand.1 % 6 + 1

/-- The defender's die of a resolved attack started in environment `e`: the
second `rand() % 6 + 1`. -/
def dadoDefensor (e : Ambiente) : Nat :=
  e.rand.2.rand.1 % 6 + 1

/-- The environment in which `faseDeAtaque` reaches its test of the two
integers: the board and the two questions have been printed. -/
def aposPerguntas (mapa : List Territorio) (e : Ambiente) : Ambiente :=
  ((exibirMapa mapa e).printf (.escolhaAtacante mapa.length)).printf
    (.escolhaDefensor mapa.length)

/-- The array `nomes` of `inicializarTerritorios`. -/
def nomes : List String := ["Brasil", "Argentina", "Chile", "Peru", "México"]

/-- The array `cores` of `inicializarTerritorios`. -/
def cores : List String := ["Azul", "Vermelho", "Verde", "Amarelo", "Preto"]

/-- The loop of `inicializarTerritorios` from index `i` on: every field of
every record is overwritten.  The two arrays have five entries and the
program initializes five territories; an index past them, which the C code
would read outside the arrays, gives the empty text here. -/
def inicializarDesde : List Territorio → Nat → Ambiente → List Territorio × Ambiente
  | [], _, e => ([], e)
  | _ :: resto, i, e =>
    let (r, e) := e.rand
    let t : Territorio :=
      { nome := nomes.getD i "", cor := cores.getD i "", tropas := ((r % 5 : Nat) : Int) + 1 }
    let (resto, e) := inicializarDesde resto (i + 1) e
    (t :: resto, e)

/-- `inicializarTerritorios(mapa, n)`. -/
def inicializarTerritorios (mapa : List Territorio) (e : Ambiente) :
    List Territorio × Ambiente :=
  inicializarDesde mapa 0 e

/-- `sortearMissao()`: `rand() % QTD_MISSOES` with `QTD_MISSOES` 2. -/
def sortearMissao (e : Ambiente) : Int × Ambiente :=
  let (r, e) := e.rand
  (((r % 2 : Nat) : Int), e)

/-- `exibirMissao(idMissao)`. -/
def exibirMissao (idMissao : Int) (e : Ambiente) : Ambiente :=
  let e := e.printf .suaMissao
  if idMissao = 0 then
    e.printf .missaoDestruirVerde
  else
    e.printf .missaoConquistarTres

/-- `exibirMenuPrincipal()`. -/
def exibirMenuPrincipal (e : Ambiente) : Ambiente :=
  let e := e.printf .menuPrincipal
  let e := e.printf .menuAtacar
  let e := e.printf .menuVerificarMissao
  e.printf .menuSair

/-- The constant `corJogador` of `main`. -/
def corJogador : String := "Azul"

/-- The variables of `main` that live across the iterations of its loop:
the board, `missaoID` and `venceu` (`opcao` is read anew in each iteration
before it is used). -/
structure Jogo where
  mapa : List Territorio
  missaoID : Int
  venceu : Bool

/-- What the player enters in one iteration of the loop of `main`: the
option, and the two integers `faseDeAtaque` reads when the option is 1. -/
structure Entrada where
  opcao : Int
  a : Int
  d : Int

/-- Where the loop of `main` stands: still running, left through `break`
with the mission completed, or left because the option was 0. -/
inductive Fase where
  | jogando
  | ganhou
  | encerrado
deriving DecidableEq, Repr

/-- The setup of `main` once the board has been allocated:
`inicializarTerritorios`, then `sortearMissao`, with `venceu = 0`. -/
def iniciar (mapa : List Territorio) (e : Ambiente) : Jogo × Ambiente :=
  let (mapa, e) := inicializarTerritorios mapa e
  let (missaoID, e) := sortearMissao e
  ({ mapa := mapa, missaoID := missaoID, venceu := false }, e)

/-- The environment in which the loop of `main` reaches its `switch`: the
board, the mission, the menu and the question have been printed. -/
def aposMenu (j : Jogo) (e : Ambiente) : Ambiente :=
  (exibirMenuPrincipal (exibirMissao j.missaoID (exibirMapa j.mapa e))).printf .escolhaOpcao

/-- The body of the loop of `main` up to the end of its `switch`. -/
def iteracao (j : Jogo) (i : Entrada) (e : Ambiente) : Jogo × Ambiente :=
  let e := exibirMapa j.mapa e
  let e := exibirMissao j.missaoID e
  let e := exibirMenuPrincipal e
  let e := e.printf .escolhaOpcao
  if i.opcao = 1 then
    let r := faseDeAtaque j.mapa i.a i.d e
    ({ j with mapa := r.1 }, r.2)
  else if i.opcao = 2 then
    let venceu := verificarVitoria j.mapa j.missaoID corJogador
    if venceu then
      ({ j with venceu := venceu }, e.printf .concluiuMissao)
    else
      ({ j with venceu := venceu }, e.printf .missaoNaoConcluida)
  else if i.opcao = 0 then
    (j, e.printf .saindoDoJogo)
  else
    (j, e.printf .opcaoInvalida)

/-- The end of the body and the test of the loop of `main`:
`if (venceu) break;` and `while (opcao != 0)`. -/
def controle (j : Jogo) (opcao : Int) : Fase :=
  if j.venceu then
    .ganhou
  else if opcao ≠ 0 then
    .jogando
  else
    .encerrado

/-- The loop of `main` on the entries the player gives, in order; when they
run out with the loop still running the result is `jogando`. -/
def laco : List Entrada → Jogo → Ambiente → Fase × Jogo × Ambiente
  | [], j, e => (.jogando, j, e)
  | i :: resto, j, e =>
    let r := iteracao j i e
    match controle r.1 i.opcao with
    | .jogando => laco resto r.1 r.2
    | f => (f, r.1, r.2)

/-- The messages that only `simularAtaque` prints. -/
def mensagemDeCombate : Mensagem → Bool
  | .semTropas _ => true
  | .ataca _ _ _ _ => true
  | .dados _ _ => true
  | .atacanteVenceu _ => true
  | .conquistou _ _ => true
  | .defensorVenceu _ => true
  | _ => false

/-- Successive calls of `faseDeAtaque`, one per pair of entered integers, as
the game loop makes them on option 1. -/
def sequenciaDeAtaques : List (Int × Int) → List Territorio → Ambiente →
    List Territorio × Ambiente
  | [], mapa, e => (mapa, e)
  | (a, d) :: resto, mapa, e =>
    let r := faseDeAtaque mapa a d e
    sequenciaDeAtaques resto r.1 r.2

/-- The sum of the troop counts of a board. -/
def somaTropas (mapa : List Territorio) : Int :=
  (mapa.map (fun t => t.tropas)).sum

/-- The dice are forced in favour of the attacker: reading the values still
to be drawn two by two, as the resolved attacks do, the second die of every
pair (the defender's) is not higher than the first (the attacker's). -/
def atacanteSempreVence (e : Ambiente) : Prop :=
  ∀ k : Nat, e.aleatorios (e.sorteados + 2 * k + 1) % 6 + 1
    ≤ e.aleatorios (e.sorteados + 2 * k) % 6 + 1

/-! ## Sample data -/

/-- A random source that returns `v` at every call, nothing printed yet. -/
def ambienteConstante (v : Nat) : Ambiente :=
  { aleatorios := fun _ => v, sorteados := 0, saida := [] }

/-- A random source whose first two values are `x` and `y`. -/
def ambienteDados (x y : Nat) : Ambiente :=
  { aleatorios := fun i => if i = 0 then x else y, sorteados := 0, saida := [] }

/-- Brasil, held by Azul with three troops. -/
def brasil : Territorio := ⟨"Brasil", "Azul", 3⟩

/-- Argentina, held by Vermelho with a single troop. -/
def argentina : Territorio := ⟨"Argentina", "Vermelho", 1⟩

/-- Chile, held by Verde with two troops. -/
def chile : Territorio := ⟨"Chile", "Verde", 2⟩

/-- A board of five territories with the names and colours of the program. -/
def mapaExemplo : List Territorio :=
  [brasil, argentina, chile, ⟨"Peru", "Amarelo", 5⟩, ⟨"México", "Preto", 4⟩]

/-- A game on `mapaExemplo` with mission 1, not won. -/
def jogoExemplo : Jogo := { mapa := mapaExemplo, missaoID := 1, venceu := false }

/-- A game with mission 0 on a board where no territory is held by Verde. -/
def jogoSemVerde : Jogo := { mapa := [brasil, argentina], missaoID := 0, venceu := false }

/-! ## The combat resolver, case by case -/

theorem dadoAtacante_faixa (e : Ambiente) : 1 ≤ dadoAtacante e ∧ dadoAtacante e ≤ 6 := by
  unfold dadoAtacante
  omega

theorem dadoDefensor_faixa (e : Ambiente) : 1 ≤ dadoDefensor e ∧ dadoDefensor e ≤ 6 := by
  unfold dadoDefensor
  omega

/-- Every pair of dice values in 1..6 is drawn from some random source. -/
theorem dados_todos (x y : Nat) (hx : 1 ≤ x ∧ x ≤ 6) (hy : 1 ≤ y ∧ y ≤ 6) :
    dadoAtacante (ambienteDados (x - 1) (y - 1)) = x ∧
      dadoDefensor (ambienteDados (x - 1) (y - 1)) = y := by
  simp only [dadoAtacante, dadoDefensor, ambienteDados, Ambiente.rand]
  simp
  omega

theorem simularAtaque_recusa (a d : Territorio) (e : Ambiente) (h : a.tropas ≤ 1) :
    simularAtaque a d e = (a, d, e.printf (.semTropas a.nome)) := by
  simp [simularAtaque, h]

theorem simularAtaque_defensorVence (a d : Territorio) (e : Ambiente) (h : 1 < a.tropas)
    (hd : dadoAtacante e < dadoDefensor e) :
    (simularAtaque a d e).1 = { a with tropas := a.tropas - 1 } ∧
      (simularAtaque a d e).2.1 = d := by
  have h1 : ¬ a.tropas ≤ 1 := by omega
  simp only [dadoAtacante, dadoDefensor] at hd
  have h2 : ¬ (e.rand.1 % 6 + 1 ≥ e.rand.2.rand.1 % 6 + 1) := by omega
  simp [simularAtaque, h1, h2]

theorem simularAtaque_perdeTropa (a d : Territorio) (e : Ambiente) (h : 1 < a.tropas)
    (hd : dadoDefensor e ≤ dadoAtacante e) (ht : 1 < d.tropas) :
    (simularAtaque a d e).1 = a ∧
      (simularAtaque a d e).2.1 = { d with tropas := d.tropas - 1 } := by
  have h1 : ¬ a.tropas ≤ 1 := by omega
  simp only [dadoAtacante, dadoDefensor] at hd
  have h2 : e.rand.1 % 6 + 1 ≥ e.rand.2.rand.1 % 6 + 1 := hd
  have h3 : ¬ d.tropas - 1 ≤ 0 := by omega
  simp [simularAtaque, h1, h2, h3]

theorem simularAtaque_conquista (a d : Territorio) (e : Ambiente) (h : 1 < a.tropas)
    (hd : dadoDefensor e ≤ dadoAtacante e) (ht : d.tropas ≤ 1) :
    (simularAtaque a d e).1 = a ∧
      (simularAtaque a d e).2.1 = { d with tropas := 1, cor := a.cor } := by
  have h1 : ¬ a.tropas ≤ 1 := by omega
  simp only [dadoAtacante, dadoDefensor] at hd
  have h2 : e.rand.1 % 6 + 1 ≥ e.rand.2.rand.1 % 6 + 1 := hd
  have h3 : d.tropas - 1 ≤ 0 := by omega
  simp [simularAtaque, h1, h2, h3]

theorem simularAtaque_sorteados (a d : Territorio) (e : Ambiente) :
    (simularAtaque a d e).2.2.aleatorios = e.aleatorios ∧
      (simularAtaque a d e).2.2.sorteados = if a.tropas ≤ 1 then e.sorteados else e.sorteados + 2 := by
  unfold simularAtaque
  by_cases h : a.tropas ≤ 1
  · simp [h, Ambiente.printf]
  · simp only [h, if_false]
    split <;> [split; skip] <;> simp [Ambiente.printf, Ambiente.rand]

/-! ## The attack phase -/

theorem exibirLinhas_aleatorios (mapa : List Territorio) (i : Nat) (e : Ambiente) :
    (exibirLinhas mapa i e).aleatorios = e.aleatorios ∧
      (exibirLinhas mapa i e).sorteados = e.sorteados := by
  induction mapa generalizing i e with
  | nil => simp [exibirLinhas]
  | cons t resto ih =>
    simp only [exibirLinhas]
    rw [(ih _ _).1, (ih _ _).2]
    simp [Ambiente.printf]

theorem aposPerguntas_aleatorios (mapa : List Territorio) (e : Ambiente) :
    (aposPerguntas mapa e).aleatorios = e.aleatorios ∧
      (aposPerguntas mapa e).sorteados = e.sorteados := by
  simp only [aposPerguntas, exibirMapa, Ambiente.printf]
  rw [(exibirLinhas_aleatorios _ _ _).1, (exibirLinhas_aleatorios _ _ _).2]
  simp

theorem aposPerguntas_dados (mapa : List Territorio) (e : Ambiente) :
    dadoAtacante (aposPerguntas mapa e) = dadoAtacante e ∧
      dadoDefensor (aposPerguntas mapa e) = dadoDefensor e := by
  obtain ⟨h1, h2⟩ := aposPerguntas_aleatorios mapa e
  simp [dadoAtacante, dadoDefensor, Ambiente.rand, h1, h2]

theorem faseDeAtaque_invalida (mapa : List Territorio) (a d : Int) (e : Ambiente)
    (h : a < 1 ∨ a > mapa.length ∨ d < 1 ∨ d > mapa.length ∨ a = d) :
    faseDeAtaque mapa a d e = (mapa, (aposPerguntas mapa e).printf .escolhaInvalida) := by
  simp [faseDeAtaque, aposPerguntas, h]

theorem faseDeAtaque_valida (mapa : List Territorio) (a d : Int) (e : Ambiente)
    (h : ¬ (a < 1 ∨ a > mapa.length ∨ d < 1 ∨ d > mapa.length ∨ a = d))
    (ta td : Territorio) (hta : mapa[(a - 1).toNat]? = some ta)
    (htd : mapa[(d - 1).toNat]? = some td) :
    faseDeAtaque mapa a d e =
      ((mapa.set (a - 1).toNat (simularAtaque ta td (aposPerguntas mapa e)).1).set
          (d - 1).toNat (simularAtaque ta td (aposPerguntas mapa e)).2.1,
        (simularAtaque ta td (aposPerguntas mapa e)).2.2) := by
  obtain ⟨ha, rfl⟩ := List.getElem?_eq_some_iff.mp hta
  obtain ⟨hd, rfl⟩ := List.getElem?_eq_some_iff.mp htd
  simp [faseDeAtaque, aposPerguntas, h]

theorem set_mesmo (mapa : List Territorio) (i : Nat) (t : Territorio)
    (h : mapa[i]? = some t) : mapa.set i t = mapa := by
  apply List.ext_getElem?
  intro k
  rw [List.getElem?_set]
  by_cases hk : i = k
  · subst hk
    obtain ⟨hi, -⟩ := List.getElem?_eq_some_iff.mp h
    simp [hi, h]
  · simp [hk]

/-! ## Claims on the combat resolver -/

/-- C1. Resolved attack: when the attacker has more than one troop, whatever
the defender and the two dice, either the defender's count reached zero or
less after its decrement, and then the defender carries the attacker's colour
and exactly one troop; or exactly one of the two troop counts went down by
exactly one, the other count and both colours being as before. -/
theorem C1_resolved_attack (a d : Territorio) (e : Ambiente) (h : 1 < a.tropas) :
    (dadoDefensor e ≤ dadoAtacante e ∧ d.tropas - 1 ≤ 0 →
        (simularAtaque a d e).2.1.cor = a.cor ∧ (simularAtaque a d e).2.1.tropas = 1) ∧
    (¬ (dadoDefensor e ≤ dadoAtacante e ∧ d.tropas - 1 ≤ 0) →
        (((simularAtaque a d e).1.tropas = a.tropas - 1 ∧
              (simularAtaque a d e).2.1.tropas = d.tropas) ∨
            ((simularAtaque a d e).2.1.tropas = d.tropas - 1 ∧
              (simularAtaque a d e).1.tropas = a.tropas)) ∧
          ¬ ((simularAtaque a d e).1.tropas = a.tropas - 1 ∧
              (simularAtaque a d e).2.1.tropas = d.tropas - 1) ∧
          (simularAtaque a d e).1.cor = a.cor ∧ (simularAtaque a d e).2.1.cor = d.cor) := by
  constructor
  · rintro ⟨hd, ht⟩
    obtain ⟨-, h2⟩ := simularAtaque_conquista a d e h hd (by omega)
    simp [h2]
  · intro hn
    by_cases hd : dadoDefensor e ≤ dadoAtacante e
    · have ht : 1 < d.tropas := by
        by_contra hc
        exact hn ⟨hd, by omega⟩
      obtain ⟨h1, h2⟩ := simularAtaque_perdeTropa a d e h hd ht
      rw [h1, h2]
      refine ⟨Or.inr ⟨rfl, rfl⟩, ?_, rfl, rfl⟩
      rintro ⟨h3, -⟩
      omega
    · obtain ⟨h1, h2⟩ := simularAtaque_defensorVence a d e h (by omega)
      rw [h1, h2]
      refine ⟨Or.inl ⟨rfl, rfl⟩, ?_, rfl, rfl⟩
      rintro ⟨-, h3⟩
      omega

theorem C1_resolved_attack_witness :
    (1 < brasil.tropas ∧
      (dadoDefensor (ambienteDados 3 3) ≤ dadoAtacante (ambienteDados 3 3) ∧
        argentina.tropas - 1 ≤ 0) ∧
      ¬ (dadoDefensor (ambienteDados 1 4) ≤ dadoAtacante (ambienteDados 1 4) ∧
        chile.tropas - 1 ≤ 0)) ∧
    ((simularAtaque brasil argentina (ambienteDados 3 3)).2.1.cor = brasil.cor ∧
      (simularAtaque brasil argentina (ambienteDados 3 3)).2.1.tropas = 1) ∧
    ((((simularAtaque brasil chile (ambienteDados 1 4)).1.tropas = brasil.tropas - 1 ∧
          (simularAtaque brasil chile (ambienteDados 1 4)).2.1.tropas = chile.tropas) ∨
        ((simularAtaque brasil chile (ambienteDados 1 4)).2.1.tropas = chile.tropas - 1 ∧
          (simularAtaque brasil chile (ambienteDados 1 4)).1.tropas = brasil.tropas)) ∧
      ¬ ((simularAtaque brasil chile (ambienteDados 1 4)).1.tropas = brasil.tropas - 1 ∧
          (simularAtaque brasil chile (ambienteDados 1 4)).2.1.tropas = chile.tropas - 1) ∧
      (simularAtaque brasil chile (ambienteDados 1 4)).1.cor = brasil.cor ∧
      (simularAtaque brasil chile (ambienteDados 1 4)).2.1.cor = chile.cor) :=
  ⟨⟨by decide, by decide, by decide⟩,
    (C1_resolved_attack brasil argentina (ambienteDados 3 3) (by decide)).1 (by decide),
    (C1_resolved_attack brasil chile (ambienteDados 1 4) (by decide)).2 (by decide)⟩

/-- C2. Refusal: an attacker with at most one troop leaves both territories
as they were and draws nothing from the random source; and `faseDeAtaque`
with valid indices that select such an attacker leaves the whole board as it
was, again with nothing drawn. -/
theorem C2_refusal (e : Ambiente) :
    (∀ a d : Territorio, a.tropas ≤ 1 →
        (simularAtaque a d e).1 = a ∧ (simularAtaque a d e).2.1 = d ∧
          (simularAtaque a d e).2.2.aleatorios = e.aleatorios ∧
          (simularAtaque a d e).2.2.sorteados = e.sorteados) ∧
    (∀ (mapa : List Territorio) (x y : Int) (ta : Territorio),
        1 ≤ x ∧ x ≤ mapa.length ∧ 1 ≤ y ∧ y ≤ mapa.length ∧ x ≠ y →
        mapa[(x - 1).toNat]? = some ta → ta.tropas ≤ 1 →
        (faseDeAtaque mapa x y e).1 = mapa ∧
          (faseDeAtaque mapa x y e).2.aleatorios = e.aleatorios ∧
          (faseDeAtaque mapa x y e).2.sorteados = e.sorteados) := by
  constructor
  · intro a d h
    rw [simularAtaque_recusa a d e h]
    simp [Ambiente.printf]
  · intro mapa x y ta hv hta h
    have hy : (y - 1).toNat < mapa.length := by omega
    have htd : mapa[(y - 1).toNat]? = some mapa[(y - 1).toNat] :=
      List.getElem?_eq_getElem hy
    rw [faseDeAtaque_valida mapa x y e (by omega) ta _ hta htd,
      simularAtaque_recusa _ _ _ h]
    obtain ⟨h1, h2⟩ := aposPerguntas_aleatorios mapa e
    refine ⟨?_, ?_, ?_⟩
    · rw [set_mesmo mapa _ ta hta, set_mesmo mapa _ _ htd]
    · simpa [Ambiente.printf] using h1
    · simpa [Ambiente.printf] using h2

theorem C2_refusal_witness :
    (argentina.tropas ≤ 1 ∧
      ((1 : Int) ≤ 2 ∧ (2 : Int) ≤ mapaExemplo.length ∧ (1 : Int) ≤ 3 ∧
        (3 : Int) ≤ mapaExemplo.length ∧ (2 : Int) ≠ 3) ∧
      mapaExemplo[((2 : Int) - 1).toNat]? = some argentina) ∧
    ((simularAtaque argentina chile (ambienteConstante 0)).1 = argentina ∧
      (simularAtaque argentina chile (ambienteConstante 0)).2.1 = chile ∧
      (simularAtaque argentina chile (ambienteConstante 0)).2.2.aleatorios
        = (ambienteConstante 0).aleatorios ∧
      (simularAtaque argentina chile (ambienteConstante 0)).2.2.sorteados
        = (ambienteConstante 0).sorteados) ∧
    ((faseDeAtaque mapaExemplo 2 3 (ambienteConstante 0)).1 = mapaExemplo ∧
      (faseDeAtaque mapaExemplo 2 3 (ambienteConstante 0)).2.aleatorios
        = (ambienteConstante 0).aleatorios ∧
      (faseDeAtaque mapaExemplo 2 3 (ambienteConstante 0)).2.sorteados
        = (ambienteConstante 0).sorteados) :=
  ⟨⟨by decide, by decide, by decide⟩,
    (C2_refusal (ambienteConstante 0)).1 argentina chile (by decide),
    (C2_refusal (ambienteConstante 0)).2 mapaExemplo 2 3 argentina (by decide) (by decide)
      (by decide)⟩

/-- C3. Tie-break: when the attacker has more than one troop and its die is
equal to or greater than the defender's (a tie included), the attacker keeps
its troop count and the defender either loses one troop, keeping its colour,
or is conquered (it takes the attacker's colour with one troop); and the
attacker's count goes down only when its die is lower than the defender's. -/
theorem C3_tie_break (a d : Territorio) (e : Ambiente) (h : 1 < a.tropas) :
    (dadoDefensor e ≤ dadoAtacante e →
        (simularAtaque a d e).1.tropas = a.tropas ∧
          ((1 < d.tropas ∧ (simularAtaque a d e).2.1.tropas = d.tropas - 1 ∧
              (simularAtaque a d e).2.1.cor = d.cor) ∨
            (d.tropas ≤ 1 ∧ (simularAtaque a d e).2.1.cor = a.cor ∧
              (simularAtaque a d e).2.1.tropas = 1))) ∧
    ((simularAtaque a d e).1.tropas ≠ a.tropas →
        dadoAtacante e < dadoDefensor e ∧
          (simularAtaque a d e).1.tropas = a.tropas - 1) := by
  by_cases hd : dadoDefensor e ≤ dadoAtacante e
  · by_cases ht : 1 < d.tropas
    · obtain ⟨h1, h2⟩ := simularAtaque_perdeTropa a d e h hd ht
      rw [h1, h2]
      exact ⟨fun _ => ⟨rfl, Or.inl ⟨ht, rfl, rfl⟩⟩, fun hc => absurd rfl hc⟩
    · obtain ⟨h1, h2⟩ := simularAtaque_conquista a d e h hd (by omega)
      rw [h1, h2]
      exact ⟨fun _ => ⟨rfl, Or.inr ⟨by omega, rfl, rfl⟩⟩, fun hc => absurd rfl hc⟩
  · obtain ⟨h1, -⟩ := simularAtaque_defensorVence a d e h (by omega)
    rw [h1]
    exact ⟨fun hc => absurd hc hd, fun _ => ⟨by omega, rfl⟩⟩

theorem C3_tie_break_witness :
    (1 < brasil.tropas ∧
      dadoDefensor (ambienteDados 2 2) ≤ dadoAtacante (ambienteDados 2 2) ∧
      (simularAtaque brasil chile (ambienteDados 0 5)).1.tropas ≠ brasil.tropas) ∧
    ((simularAtaque brasil chile (ambienteDados 2 2)).1.tropas = brasil.tropas ∧
      ((1 < chile.tropas ∧
          (simularAtaque brasil chile (ambienteDados 2 2)).2.1.tropas = chile.tropas - 1 ∧
          (simularAtaque brasil chile (ambienteDados 2 2)).2.1.cor = chile.cor) ∨
        (chile.tropas ≤ 1 ∧
          (simularAtaque brasil chile (ambienteDados 2 2)).2.1.cor = brasil.cor ∧
          (simularAtaque brasil chile (ambienteDados 2 2)).2.1.tropas = 1))) ∧
    (dadoAtacante (ambienteDados 0 5) < dadoDefensor (ambienteDados 0 5) ∧
      (simularAtaque brasil chile (ambienteDados 0 5)).1.tropas = brasil.tropas - 1) :=
  ⟨⟨by decide, by decide, by decide⟩,
    (C3_tie_break brasil chile (ambienteDados 2 2) (by decide)).1 (by decide),
    (C3_tie_break brasil chile (ambienteDados 0 5) (by decide)).2 (by decide)⟩

/-- C4. Conquest: when the attacker has more than one troop, the defender at
most one, and the attacker's die is not lower, the defender ends with the
attacker's colour and exactly one troop, and the attacker's troop count and
colour are as before (nothing is deducted for the occupying troop).
Conversely a defender that had two troops or more keeps its colour, whatever
the attacker and the dice. -/
theorem C4_conquest (a d : Territorio) (e : Ambiente) :
    (1 < a.tropas → d.tropas ≤ 1 → dadoDefensor e ≤ dadoAtacante e →
        (simularAtaque a d e).2.1.cor = a.cor ∧ (simularAtaque a d e).2.1.tropas = 1 ∧
          (simularAtaque a d e).1.tropas = a.tropas ∧ (simularAtaque a d e).1.cor = a.cor) ∧
    (2 ≤ d.tropas → (simularAtaque a d e).2.1.cor = d.cor) := by
  constructor
  · intro h ht hd
    obtain ⟨h1, h2⟩ := simularAtaque_conquista a d e h hd ht
    rw [h1, h2]
    exact ⟨rfl, rfl, rfl, rfl⟩
  · intro ht
    by_cases h : 1 < a.tropas
    · by_cases hd : dadoDefensor e ≤ dadoAtacante e
      · rw [(simularAtaque_perdeTropa a d e h hd (by omega)).2]
      · rw [(simularAtaque_defensorVence a d e h (by omega)).2]
    · rw [simularAtaque_recusa a d e (by omega)]

theorem C4_conquest_witness :
    (1 < brasil.tropas ∧ argentina.tropas ≤ 1 ∧
      dadoDefensor (ambienteDados 4 1) ≤ dadoAtacante (ambienteDados 4 1) ∧
      2 ≤ chile.tropas) ∧
    ((simularAtaque brasil argentina (ambienteDados 4 1)).2.1.cor = brasil.cor ∧
      (simularAtaque brasil argentina (ambienteDados 4 1)).2.1.tropas = 1 ∧
      (simularAtaque brasil argentina (ambienteDados 4 1)).1.tropas = brasil.tropas ∧
      (simularAtaque brasil argentina (ambienteDados 4 1)).1.cor = brasil.cor) ∧
    (simularAtaque brasil chile (ambienteDados 4 1)).2.1.cor = chile.cor :=
  ⟨⟨by decide, by decide, by decide, by decide⟩,
    (C4_conquest brasil argentina (ambienteDados 4 1)).1 (by decide) (by decide) (by decide),
    (C4_conquest brasil chile (ambienteDados 4 1)).2 (by decide)⟩

/-- C5. Defender win: when the attacker has more than one troop and its die
is lower than the defender's, the attacker's count goes down by exactly one
and stays at one or more, its colour is kept, and the defender is left exactly
as it was; no colour changes. -/
theorem C5_defender_win (a d : Territorio) (e : Ambiente) (h : 1 < a.tropas)
    (hd : dadoAtacante e < dadoDefensor e) :
    (simularAtaque a d e).1.tropas = a.tropas - 1 ∧
      (simularAtaque a d e).1.cor = a.cor ∧
      (simularAtaque a d e).2.1 = d ∧
      1 ≤ (simularAtaque a d e).1.tropas := by
  obtain ⟨h1, h2⟩ := simularAtaque_defensorVence a d e h hd
  rw [h1, h2]
  exact ⟨rfl, rfl, rfl, by show 1 ≤ a.tropas - 1; omega⟩

theorem C5_defender_win_witness :
    (1 < brasil.tropas ∧
      dadoAtacante (ambienteDados 0 5) < dadoDefensor (ambienteDados 0 5)) ∧
    ((simularAtaque brasil argentina (ambienteDados 0 5)).1.tropas = brasil.tropas - 1 ∧
      (simularAtaque brasil argentina (ambienteDados 0 5)).1.cor = brasil.cor ∧
      (simularAtaque brasil argentina (ambienteDados 0 5)).2.1 = argentina ∧
      1 ≤ (simularAtaque brasil argentina (ambienteDados 0 5)).1.tropas) :=
  ⟨⟨by decide, by decide⟩,
    C5_defender_win brasil argentina (ambienteDados 0 5) (by decide) (by decide)⟩

/-! ## Claims on the mission check -/

theorem foldl_contarTerritorio (corJogador : String) (mapa : List Territorio) (c : Nat × Nat) :
    mapa.foldl (contarTerritorio corJogador) c =
      (c.1 + mapa.countP (fun t => t.cor = corJogador),
        c.2 + mapa.countP (fun t => t.cor = "Verde")) := by
  induction mapa generalizing c with
  | nil => simp
  | cons t resto ih =>
    rw [List.foldl_cons, ih]
    simp only [contarTerritorio, List.countP_cons, decide_eq_true_eq, Prod.mk.injEq]
    constructor <;> split_ifs <;> omega

/-- C6. Mission check: with mission 0 the result is true exactly when no
territory of the board has colour "Verde"; with mission 1 (and with any
mission id other than 0) it is true exactly when the number of territories
whose colour is the player colour is 3 or more. -/
theorem C6_mission_check (mapa : List Territorio) (idMissao : Int) (corJogador : String) :
    (verificarVitoria mapa 0 corJogador = true ↔ ∀ t ∈ mapa, t.cor ≠ "Verde") ∧
    (verificarVitoria mapa 0 corJogador = true ↔
      (mapa.filter (fun t => t.cor = "Verde")).length = 0) ∧
    (verificarVitoria mapa 1 corJogador = true ↔
      3 ≤ (mapa.filter (fun t => t.cor = corJogador)).length) ∧
    (idMissao ≠ 0 →
      (verificarVitoria mapa idMissao corJogador = true ↔
        3 ≤ (mapa.filter (fun t => t.cor = corJogador)).length)) := by
  simp only [verificarVitoria, foldl_contarTerritorio, List.countP_eq_length_filter]
  refine ⟨?_, ?_, ?_, ?_⟩
  · simp [List.filter_eq_nil_iff]
  · simp
  · simp
  · intro h
    simp [h]

theorem C6_mission_check_witness :
    (2 : Int) ≠ 0 ∧
    (verificarVitoria mapaExemplo 2 "Azul" = true ↔
      3 ≤ (mapaExemplo.filter (fun t => t.cor = "Azul")).length) :=
  ⟨by decide, (C6_mission_check mapaExemplo 2 "Azul").2.2.2 (by decide)⟩

/-! ## Claims on the attack phase -/

theorem simularAtaque_tropas (a d : Territorio) (e : Ambiente) :
    (1 ≤ a.tropas → 1 ≤ (simularAtaque a d e).1.tropas) ∧
      (1 ≤ d.tropas → 1 ≤ (simularAtaque a d e).2.1.tropas) := by
  by_cases h : 1 < a.tropas
  · by_cases hd : dadoDefensor e ≤ dadoAtacante e
    · by_cases ht : 1 < d.tropas
      · obtain ⟨h1, h2⟩ := simularAtaque_perdeTropa a d e h hd ht
        rw [h1, h2]
        exact ⟨fun x => x, fun _ => by show 1 ≤ d.tropas - 1; omega⟩
      · obtain ⟨h1, h2⟩ := simularAtaque_conquista a d e h hd (by omega)
        rw [h1, h2]
        exact ⟨fun x => x, fun _ => le_refl _⟩
    · obtain ⟨h1, h2⟩ := simularAtaque_defensorVence a d e h (by omega)
      rw [h1, h2]
      exact ⟨fun _ => by show 1 ≤ a.tropas - 1; omega, fun x => x⟩
  · rw [simularAtaque_recusa a d e (by omega)]
    exact ⟨fun x => x, fun x => x⟩

theorem faseDeAtaque_tropas (mapa : List Territorio) (a d : Int) (e : Ambiente)
    (h : ∀ t ∈ mapa, 1 ≤ t.tropas) : ∀ t ∈ (faseDeAtaque mapa a d e).1, 1 ≤ t.tropas := by
  by_cases hv : a < 1 ∨ a > mapa.length ∨ d < 1 ∨ d > mapa.length ∨ a = d
  · rw [faseDeAtaque_invalida mapa a d e hv]
    exact h
  · have ha : (a - 1).toNat < mapa.length := by omega
    have hd : (d - 1).toNat < mapa.length := by omega
    rw [faseDeAtaque_valida mapa a d e hv _ _ (List.getElem?_eq_getElem ha)
      (List.getElem?_eq_getElem hd)]
    intro t ht
    obtain ⟨h1, h2⟩ := simularAtaque_tropas mapa[(a - 1).toNat] mapa[(d - 1).toNat]
      (aposPerguntas mapa e)
    rcases List.mem_or_eq_of_mem_set ht with ht | rfl
    · rcases List.mem_or_eq_of_mem_set ht with ht | rfl
      · exact h t ht
      · exact h1 (h _ (List.getElem_mem ha))
    · exact h2 (h _ (List.getElem_mem hd))

theorem sequenciaDeAtaques_tropas (ataques : List (Int × Int)) (mapa : List Territorio)
    (e : Ambiente) (h : ∀ t ∈ mapa, 1 ≤ t.tropas) :
    ∀ t ∈ (sequenciaDeAtaques ataques mapa e).1, 1 ≤ t.tropas := by
  induction ataques generalizing mapa e with
  | nil => exact h
  | cons p resto ih =>
    obtain ⟨a, d⟩ := p
    exact ih _ _ (faseDeAtaque_tropas mapa a d e h)

/-- C7. Troop-count invariant: on a board where every territory has one troop
or more, after `faseDeAtaque` with any two entered integers and any dice every
territory still has one troop or more; and so after any sequence of attack
phases no troop count is zero or negative. -/
theorem C7_troop_invariant (mapa : List Territorio) (h : ∀ t ∈ mapa, 1 ≤ t.tropas) :
    (∀ (a d : Int) (e : Ambiente), ∀ t ∈ (faseDeAtaque mapa a d e).1, 1 ≤ t.tropas) ∧
    (∀ (ataques : List (Int × Int)) (e : Ambiente),
      ∀ t ∈ (sequenciaDeAtaques ataques mapa e).1, 1 ≤ t.tropas) :=
  ⟨fun a d e => faseDeAtaque_tropas mapa a d e h,
    fun ataques e => sequenciaDeAtaques_tropas ataques mapa e h⟩

theorem C7_troop_invariant_witness :
    (∀ t ∈ mapaExemplo, 1 ≤ t.tropas) ∧
    (∀ t ∈ (faseDeAtaque mapaExemplo 1 2 (ambienteConstante 0)).1, 1 ≤ t.tropas) ∧
    (∀ t ∈ (sequenciaDeAtaques [(1, 2), (3, 1), (1, 3), (7, 1)] mapaExemplo
        (ambienteDados 0 5)).1, 1 ≤ t.tropas) :=
  ⟨by decide, (C7_troop_invariant mapaExemplo (by decide)).1 1 2 (ambienteConstante 0),
    (C7_troop_invariant mapaExemplo (by decide)).2 [(1, 2), (3, 1), (1, 3), (7, 1)]
      (ambienteDados 0 5)⟩

theorem exibirLinhas_saida (mapa : List Territorio) (i : Nat) (e : Ambiente) :
    ∃ l, (exibirLinhas mapa i e).saida = e.saida ++ l ∧
      ∀ m ∈ l, mensagemDeCombate m = false := by
  induction mapa generalizing i e with
  | nil => exact ⟨[], by simp [exibirLinhas], by simp⟩
  | cons t resto ih =>
    obtain ⟨l, h1, h2⟩ := ih (i + 1) (e.printf (.linhaMapa (i + 1) t.nome t.cor t.tropas))
    refine ⟨.linhaMapa (i + 1) t.nome t.cor t.tropas :: l, ?_, ?_⟩
    · simp only [Ambiente.printf] at h1
      simp [exibirLinhas, h1, Ambiente.printf]
    · intro m hm
      rcases List.mem_cons.mp hm with rfl | hm
      · rfl
      · exact h2 m hm

theorem aposPerguntas_saida (mapa : List Territorio) (e : Ambiente) :
    ∃ l, (aposPerguntas mapa e).saida = e.saida ++ l ∧
      ∀ m ∈ l, mensagemDeCombate m = false := by
  obtain ⟨l, h1, h2⟩ := exibirLinhas_saida mapa 0 (e.printf .mapaAtual)
  refine ⟨.mapaAtual :: (l ++ [.escolhaAtacante mapa.length, .escolhaDefensor mapa.length]),
    ?_, ?_⟩
  · simp only [Ambiente.printf] at h1
    simp [aposPerguntas, exibirMapa, h1, Ambiente.printf]
  · intro m hm
    simp only [List.mem_cons, List.mem_append, List.mem_singleton, List.not_mem_nil,
      or_false] at hm
    rcases hm with rfl | hm | rfl | rfl
    · rfl
    · exact h2 m hm
    · rfl
    · rfl

theorem simularAtaque_saida (a d : Territorio) (e : Ambiente) :
    ∃ m l, (simularAtaque a d e).2.2.saida = e.saida ++ m :: l ∧
      mensagemDeCombate m = true := by
  unfold simularAtaque
  by_cases h : a.tropas ≤ 1
  · exact ⟨.semTropas a.nome, [], by simp [h, Ambiente.printf], rfl⟩
  · refine ⟨.ataca a.nome a.cor d.nome d.cor, ?_⟩
    simp only [h, if_false]
    split <;> [split; skip] <;>
      exact ⟨_, by simp [Ambiente.printf, Ambiente.rand]; rfl, rfl⟩

/-- C8. Attack validation: when an entered integer is below 1 or above the
number of territories, or the two are equal, `faseDeAtaque` leaves the board
as it was, draws nothing from the random source and prints, after the board
and the two questions, only the invalid-choice line: no line of
`simularAtaque`.  Hence a line of `simularAtaque` in what the call printed, or
a value drawn, is only found when both integers lie in [1, n] and differ. -/
theorem C8_attack_validation (mapa : List Territorio) (a d : Int) (e : Ambiente) :
    (a < 1 ∨ a > mapa.length ∨ d < 1 ∨ d > mapa.length ∨ a = d →
        (faseDeAtaque mapa a d e).1 = mapa ∧
          (faseDeAtaque mapa a d e).2.aleatorios = e.aleatorios ∧
          (faseDeAtaque mapa a d e).2.sorteados = e.sorteados ∧
          ∃ l, (faseDeAtaque mapa a d e).2.saida = e.saida ++ l ∧
            Mensagem.escolhaInvalida ∈ l ∧ ∀ m ∈ l, mensagemDeCombate m = false) ∧
    (∀ l m, (faseDeAtaque mapa a d e).2.saida = e.saida ++ l → m ∈ l →
        mensagemDeCombate m = true →
        1 ≤ a ∧ a ≤ mapa.length ∧ 1 ≤ d ∧ d ≤ mapa.length ∧ a ≠ d) ∧
    ((faseDeAtaque mapa a d e).2.sorteados ≠ e.sorteados →
        1 ≤ a ∧ a ≤ mapa.length ∧ 1 ≤ d ∧ d ≤ mapa.length ∧ a ≠ d) := by
  have key : a < 1 ∨ a > mapa.length ∨ d < 1 ∨ d > mapa.length ∨ a = d →
      (faseDeAtaque mapa a d e).1 = mapa ∧
        (faseDeAtaque mapa a d e).2.aleatorios = e.aleatorios ∧
        (faseDeAtaque mapa a d e).2.sorteados = e.sorteados ∧
        ∃ l, (faseDeAtaque mapa a d e).2.saida = e.saida ++ l ∧
          Mensagem.escolhaInvalida ∈ l ∧ ∀ m ∈ l, mensagemDeCombate m = false := by
    intro h
    rw [faseDeAtaque_invalida mapa a d e h]
    obtain ⟨h1, h2⟩ := aposPerguntas_aleatorios mapa e
    obtain ⟨l, h3, h4⟩ := aposPerguntas_saida mapa e
    refine ⟨rfl, h1, h2, l ++ [.escolhaInvalida], ?_, by simp, ?_⟩
    · simp [Ambiente.printf, h3]
    · intro m hm
      rcases List.mem_append.mp hm with hm | hm
      · exact h4 m hm
      · rw [List.mem_singleton.mp hm]
        rfl
  refine ⟨key, ?_, ?_⟩
  · intro l m hl hm hc
    by_contra hv
    obtain ⟨-, -, -, l2, h1, -, h2⟩ := key (by omega)
    have : l = l2 := List.append_cancel_left (hl.symm.trans h1)
    subst this
    rw [h2 m hm] at hc
    exact Bool.false_ne_true hc
  · intro hs
    by_contra hv
    exact hs (key (by omega)).2.2.1

theorem C8_attack_validation_witness :
    (((2 : Int) < 1 ∨ (2 : Int) > mapaExemplo.length ∨ (2 : Int) < 1 ∨
        (2 : Int) > mapaExemplo.length ∨ (2 : Int) = 2) ∧
      (faseDeAtaque mapaExemplo 1 3 (ambienteConstante 0)).2.sorteados
        ≠ (ambienteConstante 0).sorteados) ∧
    ((faseDeAtaque mapaExemplo 2 2 (ambienteConstante 0)).1 = mapaExemplo ∧
      (faseDeAtaque mapaExemplo 2 2 (ambienteConstante 0)).2.aleatorios
        = (ambienteConstante 0).aleatorios ∧
      (faseDeAtaque mapaExemplo 2 2 (ambienteConstante 0)).2.sorteados
        = (ambienteConstante 0).sorteados ∧
      ∃ l, (faseDeAtaque mapaExemplo 2 2 (ambienteConstante 0)).2.saida
          = (ambienteConstante 0).saida ++ l ∧
        Mensagem.escolhaInvalida ∈ l ∧ ∀ m ∈ l, mensagemDeCombate m = false) ∧
    ((1 : Int) ≤ 1 ∧ (1 : Int) ≤ mapaExemplo.length ∧ (1 : Int) ≤ 3 ∧
      (3 : Int) ≤ mapaExemplo.length ∧ (1 : Int) ≠ 3) :=
  ⟨⟨by decide, by decide⟩,
    (C8_attack_validation mapaExemplo 2 2 (ambienteConstante 0)).1 (by decide),
    (C8_attack_validation mapaExemplo 1 3 (ambienteConstante 0)).2.2 (by decide)⟩

/-- C9. Delegation and frame: with both entered integers in [1, n] and
different, the board after `faseDeAtaque` holds at position `a - 1` and at
position `d - 1` the two records that `simularAtaque` returns for the records
found there (attacker first), called with the random source as it was on
entry; every other position holds what it held, the number of territories is
the same (five stay five), the environment after the call is the one
`simularAtaque` returns, and what the call printed has a line of
`simularAtaque`. -/
theorem C9_delegation_frame (mapa : List Territorio) (a d : Int) (e : Ambiente)
    (h : 1 ≤ a ∧ a ≤ mapa.length ∧ 1 ≤ d ∧ d ≤ mapa.length ∧ a ≠ d) :
    ∃ ta td, mapa[(a - 1).toNat]? = some ta ∧ mapa[(d - 1).toNat]? = some td ∧
      (faseDeAtaque mapa a d e).1[(a - 1).toNat]?
        = some (simularAtaque ta td (aposPerguntas mapa e)).1 ∧
      (faseDeAtaque mapa a d e).1[(d - 1).toNat]?
        = some (simularAtaque ta td (aposPerguntas mapa e)).2.1 ∧
      (∀ k, k ≠ (a - 1).toNat → k ≠ (d - 1).toNat →
        (faseDeAtaque mapa a d e).1[k]? = mapa[k]?) ∧
      (faseDeAtaque mapa a d e).1.length = mapa.length ∧
      (faseDeAtaque mapa a d e).2 = (simularAtaque ta td (aposPerguntas mapa e)).2.2 ∧
      (aposPerguntas mapa e).aleatorios = e.aleatorios ∧
      (aposPerguntas mapa e).sorteados = e.sorteados ∧
      ∃ l m, (faseDeAtaque mapa a d e).2.saida = e.saida ++ l ∧ m ∈ l ∧
        mensagemDeCombate m = true := by
  have ha : (a - 1).toNat < mapa.length := by omega
  have hd : (d - 1).toNat < mapa.length := by omega
  have hne : (a - 1).toNat ≠ (d - 1).toNat := by omega
  refine ⟨mapa[(a - 1).toNat], mapa[(d - 1).toNat], List.getElem?_eq_getElem ha,
    List.getElem?_eq_getElem hd, ?_⟩
  rw [faseDeAtaque_valida mapa a d e (by omega) _ _ (List.getElem?_eq_getElem ha)
    (List.getElem?_eq_getElem hd)]
  refine ⟨?_, ?_, ?_, ?_, rfl, (aposPerguntas_aleatorios mapa e).1,
    (aposPerguntas_aleatorios mapa e).2, ?_⟩
  · rw [List.getElem?_set_ne hne.symm, List.getElem?_set_self ha]
  · rw [List.getElem?_set_self (by simpa using hd)]
  · intro k hka hkd
    rw [List.getElem?_set_ne (Ne.symm hkd), List.getElem?_set_ne (Ne.symm hka)]
  · simp
  · obtain ⟨l, h1, -⟩ := aposPerguntas_saida mapa e
    obtain ⟨m, l2, h2, h3⟩ := simularAtaque_saida mapa[(a - 1).toNat] mapa[(d - 1).toNat]
      (aposPerguntas mapa e)
    refine ⟨l ++ m :: l2, m, ?_, by simp, h3⟩
    show (simularAtaque _ _ _).2.2.saida = _
    rw [h2, h1, List.append_assoc]

theorem C9_delegation_frame_witness :
    ((1 : Int) ≤ 1 ∧ (1 : Int) ≤ mapaExemplo.length ∧ (1 : Int) ≤ 3 ∧
      (3 : Int) ≤ mapaExemplo.length ∧ (1 : Int) ≠ 3) ∧
    ∃ ta td, mapaExemplo[((1 : Int) - 1).toNat]? = some ta ∧
      mapaExemplo[((3 : Int) - 1).toNat]? = some td ∧
      (faseDeAtaque mapaExemplo 1 3 (ambienteConstante 0)).1[((1 : Int) - 1).toNat]?
        = some (simularAtaque ta td (aposPerguntas mapaExemplo (ambienteConstante 0))).1 ∧
      (faseDeAtaque mapaExemplo 1 3 (ambienteConstante 0)).1[((3 : Int) - 1).toNat]?
        = some (simularAtaque ta td (aposPerguntas mapaExemplo (ambienteConstante 0))).2.1 ∧
      (∀ k, k ≠ ((1 : Int) - 1).toNat → k ≠ ((3 : Int) - 1).toNat →
        (faseDeAtaque mapaExemplo 1 3 (ambienteConstante 0)).1[k]? = mapaExemplo[k]?) ∧
      (faseDeAtaque mapaExemplo 1 3 (ambienteConstante 0)).1.length = mapaExemplo.length ∧
      (faseDeAtaque mapaExemplo 1 3 (ambienteConstante 0)).2
        = (simularAtaque ta td (aposPerguntas mapaExemplo (ambienteConstante 0))).2.2 ∧
      (aposPerguntas mapaExemplo (ambienteConstante 0)).aleatorios
        = (ambienteConstante 0).aleatorios ∧
      (aposPerguntas mapaExemplo (ambienteConstante 0)).sorteados
        = (ambienteConstante 0).sorteados ∧
      ∃ l m, (faseDeAtaque mapaExemplo 1 3 (ambienteConstante 0)).2.saida
          = (ambienteConstante 0).saida ++ l ∧ m ∈ l ∧ mensagemDeCombate m = true :=
  ⟨by decide, C9_delegation_frame mapaExemplo 1 3 (ambienteConstante 0) (by decide)⟩

theorem simularAtaque_nome (a d : Territorio) (e : Ambiente) :
    (simularAtaque a d e).1.nome = a.nome ∧ (simularAtaque a d e).2.1.nome = d.nome := by
  by_cases h : 1 < a.tropas
  · by_cases hd : dadoDefensor e ≤ dadoAtacante e
    · by_cases ht : 1 < d.tropas
      · obtain ⟨h1, h2⟩ := simularAtaque_perdeTropa a d e h hd ht
        rw [h1, h2]
        exact ⟨rfl, rfl⟩
      · obtain ⟨h1, h2⟩ := simularAtaque_conquista a d e h hd (by omega)
        rw [h1, h2]
        exact ⟨rfl, rfl⟩
    · obtain ⟨h1, h2⟩ := simularAtaque_defensorVence a d e h (by omega)
      rw [h1, h2]
      exact ⟨rfl, rfl⟩
  · rw [simularAtaque_recusa a d e (by omega)]
    exact ⟨rfl, rfl⟩

theorem set_nome (mapa : List Territorio) (i : Nat) (t u : Territorio)
    (hi : mapa[i]? = some u) (h : t.nome = u.nome) :
    (mapa.set i t).map (fun t => t.nome) = mapa.map (fun t => t.nome) := by
  apply List.ext_getElem?
  intro k
  rw [List.getElem?_map, List.getElem?_map, List.getElem?_set]
  by_cases hk : i = k
  · subst hk
    obtain ⟨hlt, -⟩ := List.getElem?_eq_some_iff.mp hi
    simp [hlt, hi, h]
  · simp [hk]

theorem faseDeAtaque_nome (mapa : List Territorio) (a d : Int) (e : Ambiente) :
    (faseDeAtaque mapa a d e).1.map (fun t => t.nome) = mapa.map (fun t => t.nome) := by
  by_cases hv : a < 1 ∨ a > mapa.length ∨ d < 1 ∨ d > mapa.length ∨ a = d
  · rw [faseDeAtaque_invalida mapa a d e hv]
  · have ha : (a - 1).toNat < mapa.length := by omega
    have hd : (d - 1).toNat < mapa.length := by omega
    have hne : (a - 1).toNat ≠ (d - 1).toNat := by omega
    rw [faseDeAtaque_valida mapa a d e hv _ _ (List.getElem?_eq_getElem ha)
      (List.getElem?_eq_getElem hd)]
    obtain ⟨h1, h2⟩ := simularAtaque_nome mapa[(a - 1).toNat] mapa[(d - 1).toNat]
      (aposPerguntas mapa e)
    rw [set_nome _ _ _ mapa[(d - 1).toNat] ?_ h2,
      set_nome _ _ _ _ (List.getElem?_eq_getElem ha) h1]
    rw [List.getElem?_set_ne hne]
    exact List.getElem?_eq_getElem hd

theorem sequenciaDeAtaques_nome (ataques : List (Int × Int)) (mapa : List Territorio)
    (e : Ambiente) :
    (sequenciaDeAtaques ataques mapa e).1.map (fun t => t.nome)
      = mapa.map (fun t => t.nome) := by
  induction ataques generalizing mapa e with
  | nil => rfl
  | cons p resto ih =>
    obtain ⟨a, d⟩ := p
    exact (ih _ _).trans (faseDeAtaque_nome mapa a d e)

theorem inicializarTerritorios_nome (mapa : List Territorio) (e : Ambiente)
    (h : mapa.length = 5) :
    (inicializarTerritorios mapa e).1.map (fun t => t.nome) = nomes := by
  match mapa, h with
  | [_, _, _, _, _], _ => simp [inicializarTerritorios, inicializarDesde, nomes]

/-- C10. Name immutability: both records keep their `nome` through
`simularAtaque` (conquest included); every position of the board keeps its
`nome` through `faseDeAtaque`, whatever the two entered integers and the dice,
and through any sequence of attack phases; so on the board of five set up by
`inicializarTerritorios` the names stay Brasil, Argentina, Chile, Peru,
México, position by position. -/
theorem C10_name_immutability (mapa : List Territorio) (e : Ambiente) :
    (∀ ta td : Territorio, (simularAtaque ta td e).1.nome = ta.nome ∧
        (simularAtaque ta td e).2.1.nome = td.nome) ∧
    (∀ a d : Int, (faseDeAtaque mapa a d e).1.map (fun t => t.nome)
        = mapa.map (fun t => t.nome)) ∧
    (∀ ataques : List (Int × Int),
      (sequenciaDeAtaques ataques mapa e).1.map (fun t => t.nome)
        = mapa.map (fun t => t.nome)) ∧
    (mapa.length = 5 → ∀ ataques : List (Int × Int),
      (sequenciaDeAtaques ataques (inicializarTerritorios mapa e).1
          (inicializarTerritorios mapa e).2).1.map (fun t => t.nome)
        = ["Brasil", "Argentina", "Chile", "Peru", "México"]) :=
  ⟨fun ta td => simularAtaque_nome ta td e, fun a d => faseDeAtaque_nome mapa a d e,
    fun ataques => sequenciaDeAtaques_nome ataques mapa e,
    fun h ataques => (sequenciaDeAtaques_nome ataques _ _).trans
      (inicializarTerritorios_nome mapa e h)⟩

theorem C10_name_immutability_witness :
    (List.replicate 5 (Territorio.mk "" "" 0)).length = 5 ∧
    (sequenciaDeAtaques [(1, 2), (1, 3), (4, 1)]
        (inicializarTerritorios (List.replicate 5 (Territorio.mk "" "" 0))
          (ambienteConstante 7)).1
        (inicializarTerritorios (List.replicate 5 (Territorio.mk "" "" 0))
          (ambienteConstante 7)).2).1.map (fun t => t.nome)
      = ["Brasil", "Argentina", "Chile", "Peru", "México"] :=
  ⟨by decide, (C10_name_immutability (List.replicate 5 (Territorio.mk "" "" 0))
    (ambienteConstante 7)).2.2.2 (by decide) [(1, 2), (1, 3), (4, 1)]⟩

/-! ## Claims on initialization -/

theorem inicializarTerritorios_cinco (t1 t2 t3 t4 t5 : Territorio) (e : Ambiente) :
    (inicializarTerritorios [t1, t2, t3, t4, t5] e).1 =
      [⟨"Brasil", "Azul", ((e.aleatorios e.sorteados % 5 : Nat) : Int) + 1⟩,
        ⟨"Argentina", "Vermelho", ((e.aleatorios (e.sorteados + 1) % 5 : Nat) : Int) + 1⟩,
        ⟨"Chile", "Verde", ((e.aleatorios (e.sorteados + 2) % 5 : Nat) : Int) + 1⟩,
        ⟨"Peru", "Amarelo", ((e.aleatorios (e.sorteados + 3) % 5 : Nat) : Int) + 1⟩,
        ⟨"México", "Preto", ((e.aleatorios (e.sorteados + 4) % 5 : Nat) : Int) + 1⟩] := by
  simp [inicializarTerritorios, inicializarDesde, Ambiente.rand, nomes, cores]

/-- C11. Initialization: for every random source, after
`inicializarTerritorios` on five records the names are Brasil, Argentina,
Chile, Peru, México and the colours Azul, Vermelho, Verde, Amarelo, Preto,
position by position; every troop count lies in [1, 5] (it is the value
drawn for the position, modulo 5, plus 1); there are five territories; the
five names are pairwise distinct and so are the five colours. -/
theorem C11_initialization (mapa : List Territorio) (e : Ambiente) (h : mapa.length = 5) :
    (inicializarTerritorios mapa e).1.map (fun t => t.nome)
        = ["Brasil", "Argentina", "Chile", "Peru", "México"] ∧
    (inicializarTerritorios mapa e).1.map (fun t => t.cor)
        = ["Azul", "Vermelho", "Verde", "Amarelo", "Preto"] ∧
    (∀ t ∈ (inicializarTerritorios mapa e).1, 1 ≤ t.tropas ∧ t.tropas ≤ 5) ∧
    (inicializarTerritorios mapa e).1.map (fun t => t.tropas)
        = (List.range 5).map
            (fun i => ((e.aleatorios (e.sorteados + i) % 5 : Nat) : Int) + 1) ∧
    (inicializarTerritorios mapa e).1.length = 5 ∧
    ((inicializarTerritorios mapa e).1.map (fun t => t.nome)).Nodup ∧
    ((inicializarTerritorios mapa e).1.map (fun t => t.cor)).Nodup := by
  match mapa, h with
  | [t1, t2, t3, t4, t5], _ =>
    rw [inicializarTerritorios_cinco]
    refine ⟨rfl, rfl, ?_, ?_, rfl, ?_, ?_⟩
    · intro t ht
      simp only [List.mem_cons, List.mem_singleton, List.not_mem_nil, or_false] at ht
      rcases ht with rfl | rfl | rfl | rfl | rfl <;> dsimp only <;> omega
    · simp [List.range, List.range.loop]
    · simp only [List.map_cons, List.map_nil]
      decide
    · simp only [List.map_cons, List.map_nil]
      decide

theorem C11_initialization_witness :
    (List.replicate 5 (Territorio.mk "" "" 0)).length = 5 ∧
    ((inicializarTerritorios (List.replicate 5 (Territorio.mk "" "" 0))
          (ambienteDados 9 3)).1.map (fun t => t.nome)
        = ["Brasil", "Argentina", "Chile", "Peru", "México"] ∧
    (inicializarTerritorios (List.replicate 5 (Territorio.mk "" "" 0))
          (ambienteDados 9 3)).1.map (fun t => t.cor)
        = ["Azul", "Vermelho", "Verde", "Amarelo", "Preto"] ∧
    (∀ t ∈ (inicializarTerritorios (List.replicate 5 (Territorio.mk "" "" 0))
          (ambienteDados 9 3)).1, 1 ≤ t.tropas ∧ t.tropas ≤ 5) ∧
    (inicializarTerritorios (List.replicate 5 (Territorio.mk "" "" 0))
          (ambienteDados 9 3)).1.map (fun t => t.tropas)
        = (List.range 5).map
            (fun i => (((ambienteDados 9 3).aleatorios
              ((ambienteDados 9 3).sorteados + i) % 5 : Nat) : Int) + 1) ∧
    (inicializarTerritorios (List.replicate 5 (Territorio.mk "" "" 0))
          (ambienteDados 9 3)).1.length = 5 ∧
    ((inicializarTerritorios (List.replicate 5 (Territorio.mk "" "" 0))
          (ambienteDados 9 3)).1.map (fun t => t.nome)).Nodup ∧
    ((inicializarTerritorios (List.replicate 5 (Territorio.mk "" "" 0))
          (ambienteDados 9 3)).1.map (fun t => t.cor)).Nodup) :=
  ⟨by decide, C11_initialization (List.replicate 5 (Territorio.mk "" "" 0))
    (ambienteDados 9 3) (by decide)⟩

/-! ## Claims on the game loop -/

theorem iteracao_missaoID (j : Jogo) (i : Entrada) (e : Ambiente) :
    (iteracao j i e).1.missaoID = j.missaoID := by
  unfold iteracao
  simp only
  split_ifs <;> rfl

theorem iteracao_atacar (j : Jogo) (i : Entrada) (e : Ambiente) (h : i.opcao = 1) :
    (iteracao j i e).1 = { j with mapa := (faseDeAtaque j.mapa i.a i.d (aposMenu j e)).1 } := by
  simp [iteracao, aposMenu, h]

theorem iteracao_verificar (j : Jogo) (i : Entrada) (e : Ambiente) (h : i.opcao = 2) :
    (iteracao j i e).1 = { j with venceu := verificarVitoria j.mapa j.missaoID "Azul" } := by
  have h1 : i.opcao ≠ 1 := by omega
  unfold iteracao
  simp only [if_neg h1, if_pos h]
  split_ifs <;> rfl

theorem iteracao_outra (j : Jogo) (i : Entrada) (e : Ambiente) (h1 : i.opcao ≠ 1)
    (h2 : i.opcao ≠ 2) : (iteracao j i e).1 = j := by
  unfold iteracao
  simp only [h1, h2, if_false]
  split_ifs <;> rfl

theorem laco_ganhou (entradas : List Entrada) (j : Jogo) (e : Ambiente)
    (hv : j.venceu = false) (hg : (laco entradas j e).1 = .ganhou) :
    verificarVitoria (laco entradas j e).2.1.mapa j.missaoID "Azul" = true ∧
      (laco entradas j e).2.1.missaoID = j.missaoID ∧ ∃ i ∈ entradas, i.opcao = 2 := by
  induction entradas generalizing j e with
  | nil => simp [laco] at hg
  | cons i resto ih =>
    by_cases h1 : i.opcao = 1
    · have hj := iteracao_atacar j i e h1
      have hc : controle (iteracao j i e).1 i.opcao = .jogando := by
        simp [controle, hj, hv, h1]
      simp only [laco, hc] at hg ⊢
      obtain ⟨k1, k2, x, hx, k3⟩ := ih (iteracao j i e).1 (iteracao j i e).2
        (by rw [hj]; exact hv) hg
      rw [iteracao_missaoID] at k1 k2
      exact ⟨k1, k2, x, List.mem_cons_of_mem _ hx, k3⟩
    · by_cases h2 : i.opcao = 2
      · have hj := iteracao_verificar j i e h2
        by_cases hw : verificarVitoria j.mapa j.missaoID "Azul" = true
        · have hc : controle (iteracao j i e).1 i.opcao = .ganhou := by
            simp [controle, hj, hw]
          simp only [laco, hc]
          rw [hj]
          exact ⟨hw, rfl, i, List.mem_cons_self _ _, h2⟩
        · have hc : controle (iteracao j i e).1 i.opcao = .jogando := by
            simp [controle, hj, hw, h2]
          simp only [laco, hc] at hg ⊢
          obtain ⟨k1, k2, x, hx, k3⟩ := ih (iteracao j i e).1 (iteracao j i e).2
            (by rw [hj]; simpa using hw) hg
          rw [iteracao_missaoID] at k1 k2
          exact ⟨k1, k2, x, List.mem_cons_of_mem _ hx, k3⟩
      · have hj := iteracao_outra j i e h1 h2
        by_cases h0 : i.opcao = 0
        · have hc : controle (iteracao j i e).1 i.opcao = .encerrado := by
            simp [controle, hj, hv, h0]
          simp [laco, hc] at hg
        · have hc : controle (iteracao j i e).1 i.opcao = .jogando := by
            simp [controle, hj, hv, h0]
          simp only [laco, hc] at hg ⊢
          obtain ⟨k1, k2, x, hx, k3⟩ := ih (iteracao j i e).1 (iteracao j i e).2
            (by rw [hj]; exact hv) hg
          rw [iteracao_missaoID] at k1 k2
          exact ⟨k1, k2, x, List.mem_cons_of_mem _ hx, k3⟩

theorem aposMenu_aleatorios (j : Jogo) (e : Ambiente) :
    (aposMenu j e).aleatorios = e.aleatorios ∧ (aposMenu j e).sorteados = e.sorteados := by
  obtain ⟨h1, h2⟩ := exibirLinhas_aleatorios j.mapa 0 (e.printf .mapaAtual)
  simp only [Ambiente.printf] at h1 h2
  unfold aposMenu exibirMenuPrincipal exibirMissao exibirMapa
  split_ifs <;> simp [Ambiente.printf, h1, h2]

/-- C12. Game loop: in one iteration of the loop of `main`, entered with
`venceu` 0 as at the start of the program and after every iteration that
stays in the loop: option 1 runs `faseDeAtaque` on the board, with the random
source as it was, and the loop goes on; option 2 leaves the board as it was
and the loop is left as won exactly when `verificarVitoria` on that board,
the mission id and "Azul" is true, and goes on exactly when it is false;
option 0 leaves the board as it was and ends the loop; any other option
leaves the board as it was and the loop goes on.  The mission id is never
changed, an iteration that stays in the loop leaves `venceu` at 0, and when
the loop on any list of entries ends as won, the mission check holds on the
final board, the mission id is the initial one and some entry was option 2. -/
theorem C12_game_loop (j : Jogo) (i : Entrada) (e : Ambiente) (hv : j.venceu = false) :
    (i.opcao = 1 →
        (iteracao j i e).1.mapa = (faseDeAtaque j.mapa i.a i.d (aposMenu j e)).1 ∧
          (aposMenu j e).aleatorios = e.aleatorios ∧
          (aposMenu j e).sorteados = e.sorteados ∧
          controle (iteracao j i e).1 i.opcao = .jogando) ∧
    (i.opcao = 2 →
        (iteracao j i e).1.mapa = j.mapa ∧
          (controle (iteracao j i e).1 i.opcao = .ganhou ↔
            verificarVitoria j.mapa j.missaoID "Azul" = true) ∧
          (controle (iteracao j i e).1 i.opcao = .jogando ↔
            verificarVitoria j.mapa j.missaoID "Azul" = false)) ∧
    (i.opcao = 0 →
        (iteracao j i e).1.mapa = j.mapa ∧
          controle (iteracao j i e).1 i.opcao = .encerrado) ∧
    (i.opcao ≠ 1 → i.opcao ≠ 2 → i.opcao ≠ 0 →
        (iteracao j i e).1.mapa = j.mapa ∧
          controle (iteracao j i e).1 i.opcao = .jogando) ∧
    (iteracao j i e).1.missaoID = j.missaoID ∧
    (controle (iteracao j i e).1 i.opcao = .jogando → (iteracao j i e).1.venceu = false) ∧
    (∀ entradas : List Entrada, (laco entradas j e).1 = .ganhou →
        verificarVitoria (laco entradas j e).2.1.mapa j.missaoID "Azul" = true ∧
          (laco entradas j e).2.1.missaoID = j.missaoID ∧ ∃ x ∈ entradas, x.opcao = 2) ∧
    (∀ (mapa : List Territorio) (e0 : Ambiente), (iniciar mapa e0).1.venceu = false) := by
  refine ⟨?_, ?_, ?_, ?_, iteracao_missaoID j i e, ?_,
    fun entradas hg => laco_ganhou entradas j e hv hg, fun mapa e0 => rfl⟩
  · intro h
    rw [iteracao_atacar j i e h]
    exact ⟨rfl, (aposMenu_aleatorios j e).1, (aposMenu_aleatorios j e).2,
      by simp [controle, hv, h]⟩
  · intro h
    rw [iteracao_verificar j i e h]
    refine ⟨rfl, ?_, ?_⟩
    · cases hw : verificarVitoria j.mapa j.missaoID "Azul" <;> simp [controle, h]
    · cases hw : verificarVitoria j.mapa j.missaoID "Azul" <;> simp [controle, h]
  · intro h
    rw [iteracao_outra j i e (by omega) (by omega)]
    exact ⟨rfl, by simp [controle, hv, h]⟩
  · intro h1 h2 h0
    rw [iteracao_outra j i e h1 h2]
    exact ⟨rfl, by simp [controle, hv, h0]⟩
  · intro hc
    by_contra hw
    simp [controle, hw] at hc

theorem C12_game_loop_witness :
    (jogoExemplo.venceu = false ∧ jogoSemVerde.venceu = false ∧
      (Entrada.mk 1 1 3).opcao = 1 ∧ (Entrada.mk 2 0 0).opcao = 2 ∧
      (laco [⟨1, 1, 2⟩, ⟨5, 0, 0⟩, ⟨2, 0, 0⟩, ⟨0, 0, 0⟩] jogoSemVerde
        (ambienteConstante 0)).1 = .ganhou) ∧
    ((iteracao jogoExemplo ⟨1, 1, 3⟩ (ambienteConstante 0)).1.mapa
        = (faseDeAtaque jogoExemplo.mapa 1 3 (aposMenu jogoExemplo (ambienteConstante 0))).1 ∧
      (aposMenu jogoExemplo (ambienteConstante 0)).aleatorios
        = (ambienteConstante 0).aleatorios ∧
      (aposMenu jogoExemplo (ambienteConstante 0)).sorteados
        = (ambienteConstante 0).sorteados ∧
      controle (iteracao jogoExemplo ⟨1, 1, 3⟩ (ambienteConstante 0)).1 1 = .jogando) ∧
    ((iteracao jogoExemplo ⟨2, 0, 0⟩ (ambienteConstante 0)).1.mapa = jogoExemplo.mapa ∧
      (controle (iteracao jogoExemplo ⟨2, 0, 0⟩ (ambienteConstante 0)).1 2 = .ganhou ↔
        verificarVitoria jogoExemplo.mapa jogoExemplo.missaoID "Azul" = true) ∧
      (controle (iteracao jogoExemplo ⟨2, 0, 0⟩ (ambienteConstante 0)).1 2 = .jogando ↔
        verificarVitoria jogoExemplo.mapa jogoExemplo.missaoID "Azul" = false)) ∧
    (verificarVitoria
        (laco [⟨1, 1, 2⟩, ⟨5, 0, 0⟩, ⟨2, 0, 0⟩, ⟨0, 0, 0⟩] jogoSemVerde
          (ambienteConstante 0)).2.1.mapa jogoSemVerde.missaoID "Azul" = true ∧
      (laco [⟨1, 1, 2⟩, ⟨5, 0, 0⟩, ⟨2, 0, 0⟩, ⟨0, 0, 0⟩] jogoSemVerde
          (ambienteConstante 0)).2.1.missaoID = jogoSemVerde.missaoID ∧
      ∃ x ∈ [Entrada.mk 1 1 2, ⟨5, 0, 0⟩, ⟨2, 0, 0⟩, ⟨0, 0, 0⟩], x.opcao = 2) :=
  ⟨⟨by decide, by decide, by decide, by decide, by decide⟩,
    (C12_game_loop jogoExemplo ⟨1, 1, 3⟩ (ambienteConstante 0) (by decide)).1 (by decide),
    (C12_game_loop jogoExemplo ⟨2, 0, 0⟩ (ambienteConstante 0) (by decide)).2.1 (by decide),
    (C12_game_loop jogoSemVerde ⟨0, 0, 0⟩ (ambienteConstante 0) (by decide)).2.2.2.2.2.2.1
      [⟨1, 1, 2⟩, ⟨5, 0, 0⟩, ⟨2, 0, 0⟩, ⟨0, 0, 0⟩] (by decide)⟩

/-! ## Colours on the board -/

theorem verificarVitoria_zero (mapa : List Territorio) (c : String) :
    verificarVitoria mapa 0 c = true ↔ ∀ t ∈ mapa, t.cor ≠ "Verde" := by
  simp [verificarVitoria, foldl_contarTerritorio, List.countP_eq_length_filter,
    List.filter_eq_nil_iff]

theorem verificarVitoria_um (mapa : List Territorio) (c : String) :
    verificarVitoria mapa 1 c = true ↔ 3 ≤ mapa.countP (fun t => t.cor = c) := by
  simp [verificarVitoria, foldl_contarTerritorio]

theorem simularAtaque_cor (a d : Territorio) (e : Ambiente) :
    (simularAtaque a d e).1.cor = a.cor ∧
      ((simularAtaque a d e).2.1.cor = d.cor ∨
        (1 < a.tropas ∧ (simularAtaque a d e).2.1.cor = a.cor)) := by
  by_cases h : 1 < a.tropas
  · by_cases hd : dadoDefensor e ≤ dadoAtacante e
    · by_cases ht : 1 < d.tropas
      · obtain ⟨h1, h2⟩ := simularAtaque_perdeTropa a d e h hd ht
        rw [h1, h2]
        exact ⟨rfl, Or.inl rfl⟩
      · obtain ⟨h1, h2⟩ := simularAtaque_conquista a d e h hd (by omega)
        rw [h1, h2]
        exact ⟨rfl, Or.inr ⟨h, rfl⟩⟩
    · obtain ⟨h1, h2⟩ := simularAtaque_defensorVence a d e h (by omega)
      rw [h1, h2]
      exact ⟨rfl, Or.inl rfl⟩
  · rw [simularAtaque_recusa a d e (by omega)]
    exact ⟨rfl, Or.inl rfl⟩

theorem faseDeAtaque_cor (mapa : List Territorio) (a d : Int) (e : Ambiente) :
    ∀ u ∈ (faseDeAtaque mapa a d e).1, ∃ t ∈ mapa, t.cor = u.cor := by
  by_cases hv : a < 1 ∨ a > mapa.length ∨ d < 1 ∨ d > mapa.length ∨ a = d
  · rw [faseDeAtaque_invalida mapa a d e hv]
    exact fun u hu => ⟨u, hu, rfl⟩
  · have ha : (a - 1).toNat < mapa.length := by omega
    have hd : (d - 1).toNat < mapa.length := by omega
    rw [faseDeAtaque_valida mapa a d e hv _ _ (List.getElem?_eq_getElem ha)
      (List.getElem?_eq_getElem hd)]
    intro u hu
    obtain ⟨h1, h2⟩ := simularAtaque_cor mapa[(a - 1).toNat] mapa[(d - 1).toNat]
      (aposPerguntas mapa e)
    rcases List.mem_or_eq_of_mem_set hu with hu | rfl
    · rcases List.mem_or_eq_of_mem_set hu with hu | rfl
      · exact ⟨u, hu, rfl⟩
      · exact ⟨_, List.getElem_mem ha, h1.symm⟩
    · rcases h2 with h2 | ⟨-, h2⟩
      · exact ⟨_, List.getElem_mem hd, h2.symm⟩
      · exact ⟨_, List.getElem_mem ha, h2.symm⟩

theorem sequenciaDeAtaques_cor (ataques : List (Int × Int)) (mapa : List Territorio)
    (e : Ambiente) : ∀ u ∈ (sequenciaDeAtaques ataques mapa e).1, ∃ t ∈ mapa, t.cor = u.cor := by
  induction ataques generalizing mapa e with
  | nil => exact fun u hu => ⟨u, hu, rfl⟩
  | cons p resto ih =>
    obtain ⟨a, d⟩ := p
    intro u hu
    obtain ⟨t, ht, h1⟩ := ih _ _ u hu
    obtain ⟨t0, ht0, h0⟩ := faseDeAtaque_cor mapa a d e t ht
    exact ⟨t0, ht0, h0.trans h1⟩

/-- C17. No colour is introduced: every `cor` found on the board after
`faseDeAtaque`, whatever the two entered integers and the dice, is the `cor`
of some territory of the board before it, and the same holds after any
sequence of attack phases.  So a board without "Verde" stays without "Verde",
and once `verificarVitoria` with mission 0 is true it is true after the attack
phase and after every sequence of attack phases. -/
theorem C17_no_new_colour (mapa : List Territorio) (e : Ambiente) :
    (∀ (a d : Int), ∀ u ∈ (faseDeAtaque mapa a d e).1, ∃ t ∈ mapa, t.cor = u.cor) ∧
    (∀ ataques : List (Int × Int),
      ∀ u ∈ (sequenciaDeAtaques ataques mapa e).1, ∃ t ∈ mapa, t.cor = u.cor) ∧
    ((∀ t ∈ mapa, t.cor ≠ "Verde") →
      ∀ (a d : Int), ∀ u ∈ (faseDeAtaque mapa a d e).1, u.cor ≠ "Verde") ∧
    (∀ c : String, verificarVitoria mapa 0 c = true →
      (∀ a d : Int, verificarVitoria (faseDeAtaque mapa a d e).1 0 c = true) ∧
      ∀ ataques : List (Int × Int),
        verificarVitoria (sequenciaDeAtaques ataques mapa e).1 0 c = true) := by
  refine ⟨fun a d => faseDeAtaque_cor mapa a d e,
    fun ataques => sequenciaDeAtaques_cor ataques mapa e, ?_, ?_⟩
  · intro h a d u hu
    obtain ⟨t, ht, h1⟩ := faseDeAtaque_cor mapa a d e u hu
    rw [← h1]
    exact h t ht
  · intro c h
    rw [verificarVitoria_zero] at h
    constructor
    · intro a d
      rw [verificarVitoria_zero]
      intro u hu
      obtain ⟨t, ht, h1⟩ := faseDeAtaque_cor mapa a d e u hu
      rw [← h1]
      exact h t ht
    · intro ataques
      rw [verificarVitoria_zero]
      intro u hu
      obtain ⟨t, ht, h1⟩ := sequenciaDeAtaques_cor ataques mapa e u hu
      rw [← h1]
      exact h t ht

theorem C17_no_new_colour_witness :
    ((∀ t ∈ [brasil, argentina], t.cor ≠ "Verde") ∧
      verificarVitoria [brasil, argentina] 0 "Azul" = true) ∧
    (∀ u ∈ (faseDeAtaque [brasil, argentina] 1 2 (ambienteConstante 0)).1, u.cor ≠ "Verde") ∧
    (verificarVitoria (faseDeAtaque [brasil, argentina] 1 2 (ambienteConstante 0)).1 0 "Azul"
        = true ∧
      verificarVitoria (sequenciaDeAtaques [(1, 2), (2, 1), (1, 2)] [brasil, argentina]
        (ambienteConstante 0)).1 0 "Azul" = true) :=
  ⟨⟨by decide, by decide⟩,
    (C17_no_new_colour [brasil, argentina] (ambienteConstante 0)).2.2.1 (by decide) 1 2,
    ((C17_no_new_colour [brasil, argentina] (ambienteConstante 0)).2.2.2 "Azul"
        (by decide)).1 1 2,
    ((C17_no_new_colour [brasil, argentina] (ambienteConstante 0)).2.2.2 "Azul"
        (by decide)).2 [(1, 2), (2, 1), (1, 2)]⟩

/-! ## Troop counts never grow -/

theorem somaTropas_set (mapa : List Territorio) (i : Nat) (x old : Territorio)
    (h : mapa[i]? = some old) :
    somaTropas (mapa.set i x) = somaTropas mapa - old.tropas + x.tropas := by
  induction mapa generalizing i with
  | nil => simp at h
  | cons t resto ih =>
    cases i with
    | zero =>
      simp only [List.getElem?_cons_zero, Option.some.injEq] at h
      subst h
      simp only [somaTropas, List.set_cons_zero, List.map_cons, List.sum_cons]
      omega
    | succ k =>
      simp only [List.getElem?_cons_succ] at h
      have := ih k h
      simp only [somaTropas, List.set_cons_succ, List.map_cons, List.sum_cons] at this ⊢
      omega

theorem simularAtaque_soma (a d : Territorio) (e : Ambiente) (hd1 : 1 ≤ d.tropas) :
    (simularAtaque a d e).1.tropas ≤ a.tropas ∧
      (simularAtaque a d e).2.1.tropas ≤ d.tropas ∧
      (simularAtaque a d e).1.tropas + (simularAtaque a d e).2.1.tropas =
        a.tropas + d.tropas -
          (if 1 < a.tropas ∧ ¬ (dadoDefensor e ≤ dadoAtacante e ∧ d.tropas ≤ 1)
            then 1 else 0) := by
  by_cases h : 1 < a.tropas
  · by_cases hd : dadoDefensor e ≤ dadoAtacante e
    · by_cases ht : 1 < d.tropas
      · obtain ⟨h1, h2⟩ := simularAtaque_perdeTropa a d e h hd ht
        have hc : 1 < a.tropas ∧ ¬ (dadoDefensor e ≤ dadoAtacante e ∧ d.tropas ≤ 1) :=
          ⟨h, fun hx => by omega⟩
        rw [h1, h2, if_pos hc]
        dsimp only
        omega
      · obtain ⟨h1, h2⟩ := simularAtaque_conquista a d e h hd (by omega)
        have hc : ¬ (1 < a.tropas ∧ ¬ (dadoDefensor e ≤ dadoAtacante e ∧ d.tropas ≤ 1)) :=
          fun hx => hx.2 ⟨hd, by omega⟩
        rw [h1, h2, if_neg hc]
        dsimp only
        omega
    · obtain ⟨h1, h2⟩ := simularAtaque_defensorVence a d e h (by omega)
      have hc : 1 < a.tropas ∧ ¬ (dadoDefensor e ≤ dadoAtacante e ∧ d.tropas ≤ 1) :=
        ⟨h, fun hx => hd hx.1⟩
      rw [h1, h2, if_pos hc]
      dsimp only
      omega
  · rw [simularAtaque_recusa a d e (by omega)]
    have hc : ¬ (1 < a.tropas ∧ ¬ (dadoDefensor e ≤ dadoAtacante e ∧ d.tropas ≤ 1)) :=
      fun hx => h hx.1
    rw [if_neg hc]
    dsimp only
    omega

theorem faseDeAtaque_posicao (mapa : List Territorio) (a d : Int) (e : Ambiente)
    (h : ∀ t ∈ mapa, 1 ≤ t.tropas) (k : Nat) (t u : Territorio)
    (ht : mapa[k]? = some t) (hu : (faseDeAtaque mapa a d e).1[k]? = some u) :
    u.tropas ≤ t.tropas := by
  by_cases hv : a < 1 ∨ a > mapa.length ∨ d < 1 ∨ d > mapa.length ∨ a = d
  · rw [faseDeAtaque_invalida mapa a d e hv] at hu
    rw [ht] at hu
    rw [Option.some.inj hu]
  · have ha : (a - 1).toNat < mapa.length := by omega
    have hd : (d - 1).toNat < mapa.length := by omega
    have hne : (a - 1).toNat ≠ (d - 1).toNat := by omega
    rw [faseDeAtaque_valida mapa a d e hv _ _ (List.getElem?_eq_getElem ha)
      (List.getElem?_eq_getElem hd)] at hu
    obtain ⟨h1, h2, -⟩ := simularAtaque_soma mapa[(a - 1).toNat] mapa[(d - 1).toNat]
      (aposPerguntas mapa e) (h _ (List.getElem_mem hd))
    by_cases kd : (d - 1).toNat = k
    · subst kd
      rw [List.getElem?_set_self (by simpa using hd)] at hu
      rw [List.getElem?_eq_getElem hd] at ht
      rw [← Option.some.inj hu, ← Option.some.inj ht]
      exact h2
    · rw [List.getElem?_set_ne kd] at hu
      by_cases ka : (a - 1).toNat = k
      · subst ka
        rw [List.getElem?_set_self ha] at hu
        rw [List.getElem?_eq_getElem ha] at ht
        rw [← Option.some.inj hu, ← Option.some.inj ht]
        exact h1
      · rw [List.getElem?_set_ne ka, ht] at hu
        rw [Option.some.inj hu]

theorem faseDeAtaque_soma (mapa : List Territorio) (a d : Int) (e : Ambiente)
    (h : ∀ t ∈ mapa, 1 ≤ t.tropas) (ta td : Territorio)
    (hv : 1 ≤ a ∧ a ≤ mapa.length ∧ 1 ≤ d ∧ d ≤ mapa.length ∧ a ≠ d)
    (hta : mapa[(a - 1).toNat]? = some ta) (htd : mapa[(d - 1).toNat]? = some td) :
    somaTropas (faseDeAtaque mapa a d e).1 =
      somaTropas mapa -
        (if 1 < ta.tropas ∧ ¬ (dadoDefensor e ≤ dadoAtacante e ∧ td.tropas ≤ 1)
          then 1 else 0) := by
  have hne : (a - 1).toNat ≠ (d - 1).toNat := by omega
  rw [faseDeAtaque_valida mapa a d e (by omega) ta td hta htd]
  have htd2 : (mapa.set (a - 1).toNat
      (simularAtaque ta td (aposPerguntas mapa e)).1)[(d - 1).toNat]? = some td := by
    rw [List.getElem?_set_ne hne]
    exact htd
  rw [somaTropas_set _ _ _ td htd2, somaTropas_set _ _ _ ta hta]
  have hd1 : 1 ≤ td.tropas := h td (List.getElem?_mem htd)
  obtain ⟨-, -, h3⟩ := simularAtaque_soma ta td (aposPerguntas mapa e) hd1
  rw [(aposPerguntas_dados mapa e).1, (aposPerguntas_dados mapa e).2] at h3
  omega

theorem faseDeAtaque_soma_le (mapa : List Territorio) (a d : Int) (e : Ambiente)
    (h : ∀ t ∈ mapa, 1 ≤ t.tropas) :
    somaTropas (faseDeAtaque mapa a d e).1 ≤ somaTropas mapa := by
  by_cases hv : a < 1 ∨ a > mapa.length ∨ d < 1 ∨ d > mapa.length ∨ a = d
  · rw [faseDeAtaque_invalida mapa a d e hv]
  · have ha : (a - 1).toNat < mapa.length := by omega
    have hd : (d - 1).toNat < mapa.length := by omega
    rw [faseDeAtaque_soma mapa a d e h _ _ (by omega) (List.getElem?_eq_getElem ha)
      (List.getElem?_eq_getElem hd)]
    split_ifs <;> omega

theorem sequenciaDeAtaques_soma_le (ataques : List (Int × Int)) (mapa : List Territorio)
    (e : Ambiente) (h : ∀ t ∈ mapa, 1 ≤ t.tropas) :
    somaTropas (sequenciaDeAtaques ataques mapa e).1 ≤ somaTropas mapa := by
  induction ataques generalizing mapa e with
  | nil => exact le_refl _
  | cons p resto ih =>
    obtain ⟨a, d⟩ := p
    exact le_trans (ih _ _ (faseDeAtaque_tropas mapa a d e h))
      (faseDeAtaque_soma_le mapa a d e h)

/-- C16. No reinforcement: on a board where every territory has one troop or
more, after `faseDeAtaque` with any two entered integers and any dice the
troop count at each position is at most what it was, so the sum of the troop
counts does not grow, also over any sequence of attack phases.  With valid
integers the sum goes down by exactly one when the attack is resolved (the
attacker has more than one troop) and is not a conquest, and is unchanged on
a conquest and on a refused attack; with invalid integers it is unchanged. -/
theorem C16_no_reinforcement (mapa : List Territorio) (a d : Int) (e : Ambiente)
    (h : ∀ t ∈ mapa, 1 ≤ t.tropas) :
    (∀ (k : Nat) (t u : Territorio), mapa[k]? = some t →
        (faseDeAtaque mapa a d e).1[k]? = some u → u.tropas ≤ t.tropas) ∧
    somaTropas (faseDeAtaque mapa a d e).1 ≤ somaTropas mapa ∧
    (∀ ta td : Territorio, 1 ≤ a ∧ a ≤ mapa.length ∧ 1 ≤ d ∧ d ≤ mapa.length ∧ a ≠ d →
        mapa[(a - 1).toNat]? = some ta → mapa[(d - 1).toNat]? = some td →
        (1 < ta.tropas → ¬ (dadoDefensor e ≤ dadoAtacante e ∧ td.tropas ≤ 1) →
          somaTropas (faseDeAtaque mapa a d e).1 = somaTropas mapa - 1) ∧
        (1 < ta.tropas → dadoDefensor e ≤ dadoAtacante e → td.tropas ≤ 1 →
          somaTropas (faseDeAtaque mapa a d e).1 = somaTropas mapa) ∧
        (ta.tropas ≤ 1 → somaTropas (faseDeAtaque mapa a d e).1 = somaTropas mapa)) ∧
    (a < 1 ∨ a > mapa.length ∨ d < 1 ∨ d > mapa.length ∨ a = d →
        somaTropas (faseDeAtaque mapa a d e).1 = somaTropas mapa) ∧
    (∀ ataques : List (Int × Int),
        somaTropas (sequenciaDeAtaques ataques mapa e).1 ≤ somaTropas mapa) := by
  refine ⟨fun k t u ht hu => faseDeAtaque_posicao mapa a d e h k t u ht hu,
    faseDeAtaque_soma_le mapa a d e h, ?_, ?_,
    fun ataques => sequenciaDeAtaques_soma_le ataques mapa e h⟩
  · intro ta td hv hta htd
    have hs := faseDeAtaque_soma mapa a d e h ta td hv hta htd
    refine ⟨fun h1 h2 => ?_, fun h1 h2 h3 => ?_, fun h1 => ?_⟩
    · rw [hs, if_pos ⟨h1, h2⟩]
    · rw [hs, if_neg (fun hx => hx.2 ⟨h2, h3⟩)]
      omega
    · rw [hs, if_neg (fun hx => by omega)]
      omega
  · intro hv
    rw [faseDeAtaque_invalida mapa a d e hv]

theorem C16_no_reinforcement_witness :
    ((∀ t ∈ mapaExemplo, 1 ≤ t.tropas) ∧
      ((1 : Int) ≤ 1 ∧ (1 : Int) ≤ mapaExemplo.length ∧ (1 : Int) ≤ 3 ∧
        (3 : Int) ≤ mapaExemplo.length ∧ (1 : Int) ≠ 3) ∧
      mapaExemplo[((1 : Int) - 1).toNat]? = some brasil ∧
      mapaExemplo[((3 : Int) - 1).toNat]? = some chile ∧
      1 < brasil.tropas ∧
      ¬ (dadoDefensor (ambienteDados 2 2) ≤ dadoAtacante (ambienteDados 2 2) ∧
        chile.tropas ≤ 1) ∧
      ((1 : Int) ≤ 1 ∧ (1 : Int) ≤ mapaExemplo.length ∧ (1 : Int) ≤ 2 ∧
        (2 : Int) ≤ mapaExemplo.length ∧ (1 : Int) ≠ 2) ∧
      mapaExemplo[((2 : Int) - 1).toNat]? = some argentina ∧
      dadoDefensor (ambienteDados 2 2) ≤ dadoAtacante (ambienteDados 2 2) ∧
      argentina.tropas ≤ 1) ∧
    somaTropas (faseDeAtaque mapaExemplo 1 3 (ambienteDados 2 2)).1
      = somaTropas mapaExemplo - 1 ∧
    somaTropas (faseDeAtaque mapaExemplo 1 2 (ambienteDados 2 2)).1 = somaTropas mapaExemplo ∧
    somaTropas (sequenciaDeAtaques [(1, 3), (1, 2), (4, 5)] mapaExemplo (ambienteDados 2 2)).1
      ≤ somaTropas mapaExemplo :=
  ⟨⟨by decide, by decide, by decide, by decide, by decide, by decide, by decide, by decide,
      by decide, by decide⟩,
    ((C16_no_reinforcement mapaExemplo 1 3 (ambienteDados 2 2) (by decide)).2.2.1 brasil chile
      (by decide) (by decide) (by decide)).1 (by decide) (by decide),
    ((C16_no_reinforcement mapaExemplo 1 2 (ambienteDados 2 2) (by decide)).2.2.1 brasil
      argentina (by decide) (by decide) (by decide)).2.1 (by decide) (by decide) (by decide),
    (C16_no_reinforcement mapaExemplo 1 2 (ambienteDados 2 2) (by decide)).2.2.2.2
      [(1, 3), (1, 2), (4, 5)]⟩

/-! ## One attack on the board -/

theorem faseDeAtaque_conquista (mapa : List Territorio) (a d : Int) (e : Ambiente)
    (ta td : Territorio)
    (hv : 1 ≤ a ∧ a ≤ mapa.length ∧ 1 ≤ d ∧ d ≤ mapa.length ∧ a ≠ d)
    (hta : mapa[(a - 1).toNat]? = some ta) (htd : mapa[(d - 1).toNat]? = some td)
    (h1 : 1 < ta.tropas) (hd : dadoDefensor e ≤ dadoAtacante e) (ht : td.tropas ≤ 1) :
    (faseDeAtaque mapa a d e).1 =
        mapa.set (d - 1).toNat { td with tropas := 1, cor := ta.cor } ∧
      (faseDeAtaque mapa a d e).2.aleatorios = e.aleatorios ∧
      (faseDeAtaque mapa a d e).2.sorteados = e.sorteados + 2 := by
  rw [faseDeAtaque_valida mapa a d e (by omega) ta td hta htd]
  obtain ⟨k1, k2⟩ := aposPerguntas_dados mapa e
  obtain ⟨r1, r2⟩ := simularAtaque_conquista ta td (aposPerguntas mapa e) h1
    (by rw [k1, k2]; exact hd) ht
  obtain ⟨s1, s2⟩ := simularAtaque_sorteados ta td (aposPerguntas mapa e)
  rw [if_neg (by omega)] at s2
  refine ⟨?_, ?_, ?_⟩
  · show (mapa.set _ (simularAtaque ta td (aposPerguntas mapa e)).1).set _
      (simularAtaque ta td (aposPerguntas mapa e)).2.1 = _
    rw [r1, r2, set_mesmo mapa _ ta hta]
  · exact s1.trans (aposPerguntas_aleatorios mapa e).1
  · show (simularAtaque ta td (aposPerguntas mapa e)).2.2.sorteados = _
    rw [s2, (aposPerguntas_aleatorios mapa e).2]

theorem faseDeAtaque_perdeTropa (mapa : List Territorio) (a d : Int) (e : Ambiente)
    (ta td : Territorio)
    (hv : 1 ≤ a ∧ a ≤ mapa.length ∧ 1 ≤ d ∧ d ≤ mapa.length ∧ a ≠ d)
    (hta : mapa[(a - 1).toNat]? = some ta) (htd : mapa[(d - 1).toNat]? = some td)
    (h1 : 1 < ta.tropas) (hd : dadoDefensor e ≤ dadoAtacante e) (ht : 1 < td.tropas) :
    (faseDeAtaque mapa a d e).1 =
        mapa.set (d - 1).toNat { td with tropas := td.tropas - 1 } ∧
      (faseDeAtaque mapa a d e).2.aleatorios = e.aleatorios ∧
      (faseDeAtaque mapa a d e).2.sorteados = e.sorteados + 2 := by
  rw [faseDeAtaque_valida mapa a d e (by omega) ta td hta htd]
  obtain ⟨k1, k2⟩ := aposPerguntas_dados mapa e
  obtain ⟨r1, r2⟩ := simularAtaque_perdeTropa ta td (aposPerguntas mapa e) h1
    (by rw [k1, k2]; exact hd) ht
  obtain ⟨s1, s2⟩ := simularAtaque_sorteados ta td (aposPerguntas mapa e)
  rw [if_neg (by omega)] at s2
  refine ⟨?_, ?_, ?_⟩
  · show (mapa.set _ (simularAtaque ta td (aposPerguntas mapa e)).1).set _
      (simularAtaque ta td (aposPerguntas mapa e)).2.1 = _
    rw [r1, r2, set_mesmo mapa _ ta hta]
  · exact s1.trans (aposPerguntas_aleatorios mapa e).1
  · show (simularAtaque ta td (aposPerguntas mapa e)).2.2.sorteados = _
    rw [s2, (aposPerguntas_aleatorios mapa e).2]

theorem countP_set (p : Territorio → Bool) (mapa : List Territorio) (i : Nat)
    (x old : Territorio) (h : mapa[i]? = some old) :
    (mapa.set i x).countP p + (if p old = true then 1 else 0) =
      mapa.countP p + (if p x = true then 1 else 0) := by
  induction mapa generalizing i with
  | nil => simp at h
  | cons t resto ih =>
    cases i with
    | zero =>
      simp only [List.getElem?_cons_zero, Option.some.injEq] at h
      subst h
      simp only [List.set_cons_zero, List.countP_cons]
      omega
    | succ k =>
      simp only [List.getElem?_cons_succ] at h
      have := ih k h
      simp only [List.set_cons_succ, List.countP_cons]
      omega

theorem verificarVitoria_zero_conta (mapa : List Territorio) (c : String) :
    verificarVitoria mapa 0 c = true ↔ mapa.countP (fun t => t.cor = "Verde") = 0 := by
  simp [verificarVitoria, foldl_contarTerritorio]

/-- C14. Scenario B: on a board where exactly one territory has colour
"Verde", `verificarVitoria` with mission 0 is false; and when `faseDeAtaque`
selects that territory as defender and an attacker whose colour is not "Verde"
conquers it (the attacker has more than one troop, its die is not lower and
the defender has at most one troop), the defender takes the attacker's colour
and `verificarVitoria` with mission 0 on the board after the call is true. -/
theorem C14_scenario_B (mapa : List Territorio) (c : String)
    (hum : mapa.countP (fun t => t.cor = "Verde") = 1) :
    verificarVitoria mapa 0 c = false ∧
    (∀ (a d : Int) (e : Ambiente) (ta td : Territorio),
        1 ≤ a ∧ a ≤ mapa.length ∧ 1 ≤ d ∧ d ≤ mapa.length ∧ a ≠ d →
        mapa[(a - 1).toNat]? = some ta → mapa[(d - 1).toNat]? = some td →
        td.cor = "Verde" → ta.cor ≠ "Verde" →
        1 < ta.tropas → dadoDefensor e ≤ dadoAtacante e → td.tropas ≤ 1 →
        (faseDeAtaque mapa a d e).1[(d - 1).toNat]?
            = some { td with tropas := 1, cor := ta.cor } ∧
          verificarVitoria (faseDeAtaque mapa a d e).1 0 c = true) := by
  constructor
  · cases hw : verificarVitoria mapa 0 c
    · rfl
    · rw [verificarVitoria_zero_conta] at hw
      omega
  · intro a d e ta td hv hta htd hverde hcor h1 hd ht
    obtain ⟨hb, -, -⟩ := faseDeAtaque_conquista mapa a d e ta td hv hta htd h1 hd ht
    rw [hb]
    have hlt : (d - 1).toNat < mapa.length := by omega
    refine ⟨List.getElem?_set_self hlt, ?_⟩
    rw [verificarVitoria_zero_conta]
    have hc := countP_set (fun t => decide (t.cor = "Verde")) mapa (d - 1).toNat
      { td with tropas := 1, cor := ta.cor } td htd
    simp only [decide_eq_true_eq, hverde, if_true, if_neg hcor] at hc
    omega

theorem C14_scenario_B_witness :
    (mapaExemplo.countP (fun t => t.cor = "Verde") = 1 ∧
      ((1 : Int) ≤ 1 ∧ (1 : Int) ≤ (mapaExemplo.set 2 ⟨"Chile", "Verde", 1⟩).length ∧
        (1 : Int) ≤ 3 ∧ (3 : Int) ≤ (mapaExemplo.set 2 ⟨"Chile", "Verde", 1⟩).length ∧
        (1 : Int) ≠ 3) ∧
      (mapaExemplo.set 2 ⟨"Chile", "Verde", 1⟩).countP (fun t => t.cor = "Verde") = 1 ∧
      (mapaExemplo.set 2 ⟨"Chile", "Verde", 1⟩)[((1 : Int) - 1).toNat]? = some brasil ∧
      (mapaExemplo.set 2 ⟨"Chile", "Verde", 1⟩)[((3 : Int) - 1).toNat]?
        = some ⟨"Chile", "Verde", 1⟩ ∧
      (Territorio.mk "Chile" "Verde" 1).cor = "Verde" ∧ brasil.cor ≠ "Verde" ∧
      1 < brasil.tropas ∧
      dadoDefensor (ambienteDados 3 3) ≤ dadoAtacante (ambienteDados 3 3) ∧
      (Territorio.mk "Chile" "Verde" 1).tropas ≤ 1) ∧
    verificarVitoria mapaExemplo 0 "Azul" = false ∧
    ((faseDeAtaque (mapaExemplo.set 2 ⟨"Chile", "Verde", 1⟩) 1 3
          (ambienteDados 3 3)).1[((3 : Int) - 1).toNat]?
        = some { (Territorio.mk "Chile" "Verde" 1) with tropas := 1, cor := brasil.cor } ∧
      verificarVitoria (faseDeAtaque (mapaExemplo.set 2 ⟨"Chile", "Verde", 1⟩) 1 3
          (ambienteDados 3 3)).1 0 "Azul" = true) :=
  ⟨⟨by decide, by decide, by decide, by decide, by decide, by decide, by decide, by decide,
      by decide, by decide⟩,
    (C14_scenario_B mapaExemplo "Azul" (by decide)).1,
    (C14_scenario_B (mapaExemplo.set 2 ⟨"Chile", "Verde", 1⟩) "Azul" (by decide)).2 1 3
      (ambienteDados 3 3) brasil ⟨"Chile", "Verde", 1⟩ (by decide) (by decide) (by decide)
      (by decide) (by decide) (by decide) (by decide) (by decide)⟩

/-! ## A colour whose territories cannot attack -/

theorem simularAtaque_fraca (a d : Territorio) (e : Ambiente) (c : String)
    (ha : a.cor = c → a.tropas ≤ 1) (hd : d.cor = c → d.tropas ≤ 1) :
    ((simularAtaque a d e).1.cor = c →
        a.cor = c ∧ (simularAtaque a d e).1.tropas ≤ 1) ∧
      ((simularAtaque a d e).2.1.cor = c →
        d.cor = c ∧ (simularAtaque a d e).2.1.tropas ≤ 1) := by
  by_cases h : 1 < a.tropas
  · have hac : a.cor ≠ c := fun hx => by have := ha hx; omega
    by_cases hdd : dadoDefensor e ≤ dadoAtacante e
    · by_cases ht : 1 < d.tropas
      · obtain ⟨h1, h2⟩ := simularAtaque_perdeTropa a d e h hdd ht
        rw [h1, h2]
        refine ⟨fun hx => absurd hx hac, fun hx => ?_⟩
        have := hd hx
        omega
      · obtain ⟨h1, h2⟩ := simularAtaque_conquista a d e h hdd (by omega)
        rw [h1, h2]
        exact ⟨fun hx => absurd hx hac, fun hx => absurd hx hac⟩
    · obtain ⟨h1, h2⟩ := simularAtaque_defensorVence a d e h (by omega)
      rw [h1, h2]
      exact ⟨fun hx => absurd hx hac, fun hx => ⟨hx, hd hx⟩⟩
  · rw [simularAtaque_recusa a d e (by omega)]
    exact ⟨fun hx => ⟨hx, ha hx⟩, fun hx => ⟨hx, hd hx⟩⟩

theorem faseDeAtaque_fraca (mapa : List Territorio) (a d : Int) (e : Ambiente) (c : String)
    (h : ∀ t ∈ mapa, t.cor = c → t.tropas ≤ 1) :
    (∀ t ∈ (faseDeAtaque mapa a d e).1, t.cor = c → t.tropas ≤ 1) ∧
      (faseDeAtaque mapa a d e).1.countP (fun t => t.cor = c)
        ≤ mapa.countP (fun t => t.cor = c) := by
  by_cases hv : a < 1 ∨ a > mapa.length ∨ d < 1 ∨ d > mapa.length ∨ a = d
  · rw [faseDeAtaque_invalida mapa a d e hv]
    exact ⟨h, le_refl _⟩
  · have ha : (a - 1).toNat < mapa.length := by omega
    have hd : (d - 1).toNat < mapa.length := by omega
    have hne : (a - 1).toNat ≠ (d - 1).toNat := by omega
    have hta := List.getElem?_eq_getElem ha
    have htd := List.getElem?_eq_getElem hd
    rw [faseDeAtaque_valida mapa a d e hv _ _ hta htd]
    obtain ⟨h1, h2⟩ := simularAtaque_fraca mapa[(a - 1).toNat] mapa[(d - 1).toNat]
      (aposPerguntas mapa e) c (h _ (List.getElem_mem ha)) (h _ (List.getElem_mem hd))
    constructor
    · intro t ht hc
      rcases List.mem_or_eq_of_mem_set ht with ht | rfl
      · rcases List.mem_or_eq_of_mem_set ht with ht | rfl
        · exact h t ht hc
        · exact (h1 hc).2
      · exact (h2 hc).2
    · have htd2 : (mapa.set (a - 1).toNat (simularAtaque mapa[(a - 1).toNat]
          mapa[(d - 1).toNat] (aposPerguntas mapa e)).1)[(d - 1).toNat]?
          = some mapa[(d - 1).toNat] := by
        rw [List.getElem?_set_ne hne]
        exact htd
      have c1 := countP_set (fun t => decide (t.cor = c)) mapa (a - 1).toNat
        (simularAtaque mapa[(a - 1).toNat] mapa[(d - 1).toNat] (aposPerguntas mapa e)).1
        _ hta
      have c2 := countP_set (fun t => decide (t.cor = c)) _ (d - 1).toNat
        (simularAtaque mapa[(a - 1).toNat] mapa[(d - 1).toNat] (aposPerguntas mapa e)).2.1
        _ htd2
      simp only [decide_eq_true_eq] at c1 c2
      show List.countP (fun t => decide (t.cor = c)) ((mapa.set _ _).set _ _) ≤ _
      split_ifs at c1 c2 with x1 x2 x3 x4 <;> first | omega | (exfalso; tauto)

theorem sequenciaDeAtaques_fraca (ataques : List (Int × Int)) (mapa : List Territorio)
    (e : Ambiente) (c : String) (h : ∀ t ∈ mapa, t.cor = c → t.tropas ≤ 1) :
    (sequenciaDeAtaques ataques mapa e).1.countP (fun t => t.cor = c)
      ≤ mapa.countP (fun t => t.cor = c) := by
  induction ataques generalizing mapa e with
  | nil => exact le_refl _
  | cons p resto ih =>
    obtain ⟨a, d⟩ := p
    obtain ⟨h1, h2⟩ := faseDeAtaque_fraca mapa a d e c h
    exact le_trans (ih _ _ h1) h2

theorem iteracao_fraca (j : Jogo) (i : Entrada) (e : Ambiente) (c : String)
    (h : ∀ t ∈ j.mapa, t.cor = c → t.tropas ≤ 1) :
    (∀ t ∈ (iteracao j i e).1.mapa, t.cor = c → t.tropas ≤ 1) ∧
      (iteracao j i e).1.mapa.countP (fun t => t.cor = c)
        ≤ j.mapa.countP (fun t => t.cor = c) := by
  by_cases h1 : i.opcao = 1
  · rw [iteracao_atacar j i e h1]
    exact faseDeAtaque_fraca j.mapa i.a i.d (aposMenu j e) c h
  · by_cases h2 : i.opcao = 2
    · rw [iteracao_verificar j i e h2]
      exact ⟨h, le_refl _⟩
    · rw [iteracao_outra j i e h1 h2]
      exact ⟨h, le_refl _⟩

theorem laco_fraca (entradas : List Entrada) (j : Jogo) (e : Ambiente) (c : String)
    (h : ∀ t ∈ j.mapa, t.cor = c → t.tropas ≤ 1) :
    (laco entradas j e).2.1.mapa.countP (fun t => t.cor = c)
      ≤ j.mapa.countP (fun t => t.cor = c) := by
  induction entradas generalizing j e with
  | nil => exact le_refl _
  | cons i resto ih =>
    obtain ⟨k1, k2⟩ := iteracao_fraca j i e c h
    simp only [laco]
    split
    · exact le_trans (ih _ _ k1) k2
    · exact k2

/-- C15. Mission 1 can be unwinnable: when the board of five set up by
`inicializarTerritorios` gives territory 1 a single troop, exactly one
territory is held by "Azul", and after every sequence of attack phases, with
any entered integers and any dice, at most one territory is held by "Azul" and
`verificarVitoria` with mission 1 and "Azul" is false; and the loop of `main`
started on that board with mission 1 never ends as won, whatever is entered. -/
theorem C15_mission1_unwinnable (m : List Territorio) (e0 : Ambiente) (hlen : m.length = 5)
    (h1 : ∃ t, (inicializarTerritorios m e0).1[0]? = some t ∧ t.tropas = 1) :
    (inicializarTerritorios m e0).1.countP (fun t => t.cor = "Azul") = 1 ∧
    (∀ (ataques : List (Int × Int)) (e : Ambiente),
        (sequenciaDeAtaques ataques (inicializarTerritorios m e0).1 e).1.countP
            (fun t => t.cor = "Azul") ≤ 1 ∧
          verificarVitoria (sequenciaDeAtaques ataques (inicializarTerritorios m e0).1 e).1
            1 "Azul" = false) ∧
    (∀ (entradas : List Entrada) (e : Ambiente),
        (laco entradas
          { mapa := (inicializarTerritorios m e0).1, missaoID := 1, venceu := false } e).1
          ≠ .ganhou) := by
  match m, hlen with
  | [t1, t2, t3, t4, t5], _ =>
    rw [inicializarTerritorios_cinco] at h1 ⊢
    obtain ⟨t, ht, htr⟩ := h1
    simp only [List.getElem?_cons_zero, Option.some.injEq] at ht
    subst ht
    dsimp only at htr
    have hcount : List.countP (fun t : Territorio => decide (t.cor = "Azul"))
        [⟨"Brasil", "Azul", ((e0.aleatorios e0.sorteados % 5 : Nat) : Int) + 1⟩,
          ⟨"Argentina", "Vermelho", ((e0.aleatorios (e0.sorteados + 1) % 5 : Nat) : Int) + 1⟩,
          ⟨"Chile", "Verde", ((e0.aleatorios (e0.sorteados + 2) % 5 : Nat) : Int) + 1⟩,
          ⟨"Peru", "Amarelo", ((e0.aleatorios (e0.sorteados + 3) % 5 : Nat) : Int) + 1⟩,
          ⟨"México", "Preto", ((e0.aleatorios (e0.sorteados + 4) % 5 : Nat) : Int) + 1⟩]
        = 1 := by
      simp [List.countP_cons]
    have hinv : ∀ t ∈ [(⟨"Brasil", "Azul",
          ((e0.aleatorios e0.sorteados % 5 : Nat) : Int) + 1⟩ : Territorio),
          ⟨"Argentina", "Vermelho", ((e0.aleatorios (e0.sorteados + 1) % 5 : Nat) : Int) + 1⟩,
          ⟨"Chile", "Verde", ((e0.aleatorios (e0.sorteados + 2) % 5 : Nat) : Int) + 1⟩,
          ⟨"Peru", "Amarelo", ((e0.aleatorios (e0.sorteados + 3) % 5 : Nat) : Int) + 1⟩,
          ⟨"México", "Preto", ((e0.aleatorios (e0.sorteados + 4) % 5 : Nat) : Int) + 1⟩],
        t.cor = "Azul" → t.tropas ≤ 1 := by
      intro t ht hc
      simp only [List.mem_cons, List.mem_singleton, List.not_mem_nil, or_false] at ht
      rcases ht with rfl | rfl | rfl | rfl | rfl
      · exact le_of_eq htr
      all_goals
        dsimp only at hc
        exact absurd hc (by decide)
    refine ⟨hcount, fun ataques e => ?_, fun entradas e hg => ?_⟩
    · have hle := sequenciaDeAtaques_fraca ataques _ e "Azul" hinv
      rw [hcount] at hle
      refine ⟨hle, ?_⟩
      cases hw : verificarVitoria (sequenciaDeAtaques ataques _ e).1 1 "Azul"
      · rfl
      · rw [verificarVitoria_um] at hw
        omega
    · obtain ⟨hw, -, -⟩ := laco_ganhou entradas _ e rfl hg
      rw [verificarVitoria_um] at hw
      have hle := laco_fraca entradas
        { mapa := _, missaoID := 1, venceu := false } e "Azul" hinv
      rw [hcount] at hle
      omega

theorem C15_mission1_unwinnable_witness :
    ((List.replicate 5 (Territorio.mk "" "" 0)).length = 5 ∧
      ∃ t, (inicializarTerritorios (List.replicate 5 (Territorio.mk "" "" 0))
        (ambienteDados 0 8)).1[0]? = some t ∧ t.tropas = 1) ∧
    ((sequenciaDeAtaques [(2, 1), (2, 3), (1, 2), (3, 1)]
          (inicializarTerritorios (List.replicate 5 (Territorio.mk "" "" 0))
            (ambienteDados 0 8)).1 (ambienteConstante 0)).1.countP
          (fun t => t.cor = "Azul") ≤ 1 ∧
      verificarVitoria (sequenciaDeAtaques [(2, 1), (2, 3), (1, 2), (3, 1)]
          (inicializarTerritorios (List.replicate 5 (Territorio.mk "" "" 0))
            (ambienteDados 0 8)).1 (ambienteConstante 0)).1 1 "Azul" = false) :=
  ⟨⟨by decide, ⟨"Brasil", "Azul", 1⟩, by decide, by decide⟩,
    (C15_mission1_unwinnable (List.replicate 5 (Territorio.mk "" "" 0)) (ambienteDados 0 8)
      (by decide) ⟨⟨"Brasil", "Azul", 1⟩, by decide, by decide⟩).2.1
      [(2, 1), (2, 3), (1, 2), (3, 1)] (ambienteConstante 0)⟩

/-! ## Repeated attacks with the dice in favour of the attacker -/

theorem sequenciaDeAtaques_append (l1 l2 : List (Int × Int)) (mapa : List Territorio)
    (e : Ambiente) :
    sequenciaDeAtaques (l1 ++ l2) mapa e =
      sequenciaDeAtaques l2 (sequenciaDeAtaques l1 mapa e).1
        (sequenciaDeAtaques l1 mapa e).2 := by
  induction l1 generalizing mapa e with
  | nil => rfl
  | cons p resto ih =>
    obtain ⟨a, d⟩ := p
    simp only [List.cons_append, sequenciaDeAtaques]
    exact ih _ _

theorem sequenciaDeAtaques_um (a d : Int) (mapa : List Territorio) (e : Ambiente) :
    sequenciaDeAtaques [(a, d)] mapa e = faseDeAtaque mapa a d e := by
  simp [sequenciaDeAtaques]

theorem atacanteSempreVence_dados (e f : Ambiente) (k : Nat) (hs : atacanteSempreVence e)
    (h1 : f.aleatorios = e.aleatorios) (h2 : f.sorteados = e.sorteados + 2 * k) :
    dadoDefensor f ≤ dadoAtacante f ∧ atacanteSempreVence f := by
  constructor
  · have := hs k
    simp only [dadoAtacante, dadoDefensor, Ambiente.rand, h1, h2]
    exact this
  · intro n
    have := hs (k + n)
    rw [h1, h2]
    have e1 : e.sorteados + 2 * k + 2 * n + 1 = e.sorteados + 2 * (k + n) + 1 := by ring
    have e2 : e.sorteados + 2 * k + 2 * n = e.sorteados + 2 * (k + n) := by ring
    rw [e1, e2]
    exact this

theorem ataques_sem_conquista (k : Nat) (mapa : List Territorio) (a d : Int) (e : Ambiente)
    (ta td : Territorio)
    (hv : 1 ≤ a ∧ a ≤ mapa.length ∧ 1 ≤ d ∧ d ≤ mapa.length ∧ a ≠ d)
    (hta : mapa[(a - 1).toNat]? = some ta) (htd : mapa[(d - 1).toNat]? = some td)
    (h1 : 1 < ta.tropas) (hs : atacanteSempreVence e) (hk : (k : Int) < td.tropas) :
    (sequenciaDeAtaques (List.replicate k (a, d)) mapa e).1 =
        mapa.set (d - 1).toNat { td with tropas := td.tropas - k } ∧
      (sequenciaDeAtaques (List.replicate k (a, d)) mapa e).2.aleatorios = e.aleatorios ∧
      (sequenciaDeAtaques (List.replicate k (a, d)) mapa e).2.sorteados
        = e.sorteados + 2 * k := by
  induction k with
  | zero =>
    simp only [List.replicate_zero, sequenciaDeAtaques, Nat.cast_zero, sub_zero, mul_zero,
      add_zero, and_self, and_true]
    exact (set_mesmo mapa _ td htd).symm
  | succ k ih =>
    obtain ⟨hb, hal, hso⟩ := ih (by omega)
    rw [List.replicate_succ', sequenciaDeAtaques_append, sequenciaDeAtaques_um]
    generalize sequenciaDeAtaques (List.replicate k (a, d)) mapa e = r at hb hal hso
    obtain ⟨b, f⟩ := r
    simp only at hb hal hso
    subst hb
    have hne : (a - 1).toNat ≠ (d - 1).toNat := by omega
    have hlt : (d - 1).toNat < mapa.length := by omega
    obtain ⟨q1, q2, q3⟩ := faseDeAtaque_perdeTropa
      (mapa.set (d - 1).toNat { td with tropas := td.tropas - k }) a d f ta
      { td with tropas := td.tropas - k } (by simpa using hv)
      (by rw [List.getElem?_set_ne hne.symm]; exact hta)
      (List.getElem?_set_self hlt) h1
      (atacanteSempreVence_dados e f k hs hal hso).1 (by show 1 < td.tropas - k; omega)
    refine ⟨?_, q2.trans hal, ?_⟩
    · rw [q1, List.set_set]
      congr 2
      push_cast
      ring
    · rw [q3, hso]
      ring

theorem ataques_ate_conquistar (mapa : List Territorio) (a d : Int) (e : Ambiente)
    (ta td : Territorio)
    (hv : 1 ≤ a ∧ a ≤ mapa.length ∧ 1 ≤ d ∧ d ≤ mapa.length ∧ a ≠ d)
    (hta : mapa[(a - 1).toNat]? = some ta) (htd : mapa[(d - 1).toNat]? = some td)
    (h1 : 1 < ta.tropas) (hs : atacanteSempreVence e) (ht : 1 ≤ td.tropas) :
    (sequenciaDeAtaques (List.replicate td.tropas.toNat (a, d)) mapa e).1 =
        mapa.set (d - 1).toNat { td with tropas := 1, cor := ta.cor } ∧
      (sequenciaDeAtaques (List.replicate td.tropas.toNat (a, d)) mapa e).2.aleatorios
        = e.aleatorios ∧
      (sequenciaDeAtaques (List.replicate td.tropas.toNat (a, d)) mapa e).2.sorteados
        = e.sorteados + 2 * td.tropas.toNat := by
  obtain ⟨n, hn⟩ : ∃ n : Nat, td.tropas.toNat = n + 1 := ⟨td.tropas.toNat - 1, by omega⟩
  obtain ⟨hb, hal, hso⟩ := ataques_sem_conquista n mapa a d e ta td hv hta htd h1 hs
    (by omega)
  rw [hn, List.replicate_succ', sequenciaDeAtaques_append, sequenciaDeAtaques_um]
  generalize sequenciaDeAtaques (List.replicate n (a, d)) mapa e = r at hb hal hso
  obtain ⟨b, f⟩ := r
  simp only at hb hal hso
  subst hb
  have hne : (a - 1).toNat ≠ (d - 1).toNat := by omega
  have hlt : (d - 1).toNat < mapa.length := by omega
  obtain ⟨q1, q2, q3⟩ := faseDeAtaque_conquista
    (mapa.set (d - 1).toNat { td with tropas := td.tropas - n }) a d f ta
    { td with tropas := td.tropas - n } (by simpa using hv)
    (by rw [List.getElem?_set_ne hne.symm]; exact hta)
    (List.getElem?_set_self hlt) h1
    (atacanteSempreVence_dados e f n hs hal hso).1 (by show td.tropas - n ≤ 1; omega)
  refine ⟨?_, q2.trans hal, ?_⟩
  · rw [q1, List.set_set]
  · rw [q3, hso]
    ring

theorem verificarVitoria_cores (m1 m2 : List Territorio) (id : Int) (c : String)
    (h : m1.map (fun t => t.cor) = m2.map (fun t => t.cor)) :
    verificarVitoria m1 id c = verificarVitoria m2 id c := by
  have k : ∀ x : String, m1.countP (fun t => decide (t.cor = x))
      = m2.countP (fun t => decide (t.cor = x)) := by
    intro x
    have e1 := List.countP_map (fun s : String => decide (s = x)) (fun t : Territorio => t.cor) m1
    have e2 := List.countP_map (fun s : String => decide (s = x)) (fun t : Territorio => t.cor) m2
    rw [h] at e1
    exact (e1.symm.trans e2 : _)
  simp only [verificarVitoria, foldl_contarTerritorio, k]

/-- C13. Scenario A: on a board with colours Azul, Vermelho, Verde, Amarelo,
Preto (as after initialization), troop counts in [1, 5] and two troops or
more on territory 1, with the dice in favour of the attacker:
`verificarVitoria` with mission 1 and "Azul" is false at the start; attacking
territory 2 from territory 1 as many times as territory 2 has troops leaves
its colour as it was until the last of these attacks, which conquers it; the
same then holds for territory 3; after that the colours are Azul, Azul, Azul,
Amarelo, Preto and `verificarVitoria` with mission 1 and "Azul" is true. -/
theorem C13_scenario_A (mapa : List Territorio) (e : Ambiente) (t1 t2 t3 : Territorio)
    (hcor : mapa.map (fun t => t.cor) = ["Azul", "Vermelho", "Verde", "Amarelo", "Preto"])
    (htr : ∀ t ∈ mapa, 1 ≤ t.tropas ∧ t.tropas ≤ 5)
    (h1 : mapa[0]? = some t1) (h2 : mapa[1]? = some t2) (h3 : mapa[2]? = some t3)
    (hat : 2 ≤ t1.tropas) (hs : atacanteSempreVence e) :
    verificarVitoria mapa 1 "Azul" = false ∧
    (∀ k < t2.tropas.toNat,
      (sequenciaDeAtaques (List.replicate k (1, 2)) mapa e).1.map (fun t => t.cor)
        = ["Azul", "Vermelho", "Verde", "Amarelo", "Preto"]) ∧
    (sequenciaDeAtaques (List.replicate t2.tropas.toNat (1, 2)) mapa e).1.map (fun t => t.cor)
        = ["Azul", "Azul", "Verde", "Amarelo", "Preto"] ∧
    (∀ k < t3.tropas.toNat,
      (sequenciaDeAtaques (List.replicate t2.tropas.toNat (1, 2) ++ List.replicate k (1, 3))
          mapa e).1.map (fun t => t.cor)
        = ["Azul", "Azul", "Verde", "Amarelo", "Preto"]) ∧
    (sequenciaDeAtaques
          (List.replicate t2.tropas.toNat (1, 2) ++ List.replicate t3.tropas.toNat (1, 3))
          mapa e).1.map (fun t => t.cor)
        = ["Azul", "Azul", "Azul", "Amarelo", "Preto"] ∧
    verificarVitoria (sequenciaDeAtaques
          (List.replicate t2.tropas.toNat (1, 2) ++ List.replicate t3.tropas.toNat (1, 3))
          mapa e).1 1 "Azul" = true := by
  have hlen : mapa.length = 5 := by
    have := congrArg List.length hcor
    simpa using this
  have hv2 : (1 : Int) ≤ 1 ∧ (1 : Int) ≤ mapa.length ∧ (1 : Int) ≤ 2 ∧
      (2 : Int) ≤ mapa.length ∧ (1 : Int) ≠ 2 := by omega
  have hv3 : (1 : Int) ≤ 1 ∧ (1 : Int) ≤ mapa.length ∧ (1 : Int) ≤ 3 ∧
      (3 : Int) ≤ mapa.length ∧ (1 : Int) ≠ 3 := by omega
  have c1 : t1.cor = "Azul" := by
    have := congrArg (fun l => l[0]?) hcor
    simpa [h1] using this
  have c2 : t2.cor = "Vermelho" := by
    have := congrArg (fun l => l[1]?) hcor
    simpa [h2] using this
  have c3 : t3.cor = "Verde" := by
    have := congrArg (fun l => l[2]?) hcor
    simpa [h3] using this
  have r2 : 1 ≤ t2.tropas := (htr t2 (List.getElem?_mem h2)).1
  have r3 : 1 ≤ t3.tropas := (htr t3 (List.getElem?_mem h3)).1
  have fim2 := ataques_ate_conquistar mapa 1 2 e t1 t2 hv2 h1 h2 (by omega) hs r2
  have hs1 := (atacanteSempreVence_dados e _ t2.tropas.toNat hs fim2.2.1 fim2.2.2).2
  have p1 : ((sequenciaDeAtaques (List.replicate t2.tropas.toNat (1, 2)) mapa e).1)[0]?
      = some t1 := by
    rw [fim2.1]
    show (mapa.set 1 _)[0]? = _
    rw [List.getElem?_set_ne (by decide)]
    exact h1
  have p3 : ((sequenciaDeAtaques (List.replicate t2.tropas.toNat (1, 2)) mapa e).1)[2]?
      = some t3 := by
    rw [fim2.1]
    show (mapa.set 1 _)[2]? = _
    rw [List.getElem?_set_ne (by decide)]
    exact h3
  have hlen1 : (sequenciaDeAtaques (List.replicate t2.tropas.toNat (1, 2)) mapa e).1.length
      = 5 := by
    rw [fim2.1, List.length_set]
    exact hlen
  have cores1 : (sequenciaDeAtaques (List.replicate t2.tropas.toNat (1, 2)) mapa e).1.map
      (fun t => t.cor) = ["Azul", "Azul", "Verde", "Amarelo", "Preto"] := by
    rw [fim2.1, List.map_set, hcor, c1]
    rfl
  have hv3b : (1 : Int) ≤ 1 ∧
      (1 : Int) ≤ (sequenciaDeAtaques (List.replicate t2.tropas.toNat (1, 2)) mapa e).1.length ∧
      (1 : Int) ≤ 3 ∧
      (3 : Int) ≤ (sequenciaDeAtaques (List.replicate t2.tropas.toNat (1, 2)) mapa e).1.length ∧
      (1 : Int) ≠ 3 := by omega
  have fim3 := ataques_ate_conquistar _ 1 3 _ t1 t3 hv3b p1 p3 (by omega) hs1 r3
  have cores2 : (sequenciaDeAtaques
      (List.replicate t2.tropas.toNat (1, 2) ++ List.replicate t3.tropas.toNat (1, 3))
      mapa e).1.map (fun t => t.cor) = ["Azul", "Azul", "Azul", "Amarelo", "Preto"] := by
    rw [sequenciaDeAtaques_append, fim3.1, List.map_set, cores1, c1]
    rfl
  refine ⟨?_, ?_, cores1, ?_, cores2, ?_⟩
  · rw [verificarVitoria_cores mapa mapaExemplo 1 "Azul" (by rw [hcor]; rfl)]
    decide
  · intro k hk
    rw [(ataques_sem_conquista k mapa 1 2 e t1 t2 hv2 h1 h2 (by omega) hs (by omega)).1,
      List.map_set, hcor, c2]
    rfl
  · intro k hk
    rw [sequenciaDeAtaques_append,
      (ataques_sem_conquista k _ 1 3 _ t1 t3 hv3b p1 p3 (by omega) hs1 (by omega)).1,
      List.map_set, cores1, c3]
    rfl
  · rw [verificarVitoria_cores _ [⟨"", "Azul", 0⟩, ⟨"", "Azul", 0⟩, ⟨"", "Azul", 0⟩,
      ⟨"", "Amarelo", 0⟩, ⟨"", "Preto", 0⟩] 1 "Azul" (by rw [cores2]; rfl)]
    decide

theorem C13_scenario_A_witness :
    (mapaExemplo.map (fun t => t.cor) = ["Azul", "Vermelho", "Verde", "Amarelo", "Preto"] ∧
      (∀ t ∈ mapaExemplo, 1 ≤ t.tropas ∧ t.tropas ≤ 5) ∧
      mapaExemplo[0]? = some brasil ∧ mapaExemplo[1]? = some argentina ∧
      mapaExemplo[2]? = some chile ∧ 2 ≤ brasil.tropas ∧
      atacanteSempreVence (ambienteConstante 0)) ∧
    verificarVitoria mapaExemplo 1 "Azul" = false ∧
    (sequenciaDeAtaques
          (List.replicate argentina.tropas.toNat (1, 2) ++
            List.replicate chile.tropas.toNat (1, 3))
          mapaExemplo (ambienteConstante 0)).1.map (fun t => t.cor)
        = ["Azul", "Azul", "Azul", "Amarelo", "Preto"] ∧
    verificarVitoria (sequenciaDeAtaques
          (List.replicate argentina.tropas.toNat (1, 2) ++
            List.replicate chile.tropas.toNat (1, 3))
          mapaExemplo (ambienteConstante 0)).1 1 "Azul" = true :=
  ⟨⟨by decide, by decide, by decide, by decide, by decide, by decide, fun _ => le_refl _⟩,
    (C13_scenario_A mapaExemplo (ambienteConstante 0) brasil argentina chile (by decide)
      (by decide) (by decide) (by decide) (by decide) (by decide) (fun _ => le_refl _)).1,
    (C13_scenario_A mapaExemplo (ambienteConstante 0) brasil argentina chile (by decide)
      (by decide) (by decide) (by decide) (by decide) (by decide)
      (fun _ => le_refl _)).2.2.2.2.1,
    (C13_scenario_A mapaExemplo (ambienteConstante 0) brasil argentina chile (by decide)
      (by decide) (by decide) (by decide) (by decide) (by decide)
      (fun _ => le_refl _)).2.2.2.2.2⟩

end War
